import Mathlib

/-!
Verification of the PCjs storage-controller core (FDC and HDC components).

This file gives a shallow embedding, in Lean 4, of the parts of the PCjs
Floppy Disk Controller (FDC) and Hard Disk Controller (HDC, in its XTC and
ATC variants) that the specification's claims are about, and proves or
refutes each claim against that embedding.

Modelling conventions:
* JavaScript numbers holding register values, geometry counts and cursors
  are modelled as `Nat` (the code only ever increments and masks them with
  byte-sized constants); values that can hold the sentinel -1
  (`iDriveAllowFail`) are modelled as `Int`.
* The external collaborators (ChipSet/DMA peer, Disk image, CPU) live
  outside the repository; where a controller hands control to them the
  embedding takes the collaborator's effect as an explicit parameter
  (a `peer` function for DMA byte transfers, a `FDCDisk` record of
  read/write/seek callbacks for the disk image, a `fComplete` flag plus the
  drive's transfer-time error code for a DMA session outcome).
* Positional save/restore arrays are modelled as `List SVal` where `SVal`
  is a small sum of the value shapes the arrays actually carry, and
  restore reads slots by index, mirroring the `data[i++]` style of the
  source.
-/

/-! ## HDC drive geometry and the sector-advance algorithm (hdc.js) -/

/-- Geometry of an HDC drive: `nCylinders`/`nHeads`/`nSectors` as programmed
or taken from the drive-type table, and `bSectorBias` (0 for the ATC, 1 for
the XTC), mirroring fields of the Drive object in `hdc.js` `initDrive`. -/
structure HDCGeom where
  nCylinders : Nat
  nHeads : Nat
  nSectors : Nat
  bSectorBias : Nat
deriving DecidableEq

/-- Position cursor of an HDC drive: the `wCylinder`, `bHead` and `bSector`
fields of the Drive object. -/
structure HDCPos where
  wCylinder : Nat
  bHead : Nat
  bSector : Nat
deriving DecidableEq

/-- First valid sector number for a drive: `1 - drive.bSectorBias`
(so 1 for the ATC, 0 for the XTC), as in `HDC.prototype.advanceSector`. -/
def bSectorStart (g : HDCGeom) : Nat := 1 - g.bSectorBias

/-- Embedding of `HDC.prototype.advanceSector` (hdc.js lines 2609-2622):
increment `bSector`; when it reaches `nSectors + bSectorStart` reset it to
`bSectorStart` and increment `bHead`; when `bHead` reaches `nHeads` reset it
to 0 and increment `wCylinder`. -/
def advanceSector (g : HDCGeom) (p : HDCPos) : HDCPos :=
  let s := p.bSector + 1
  if s ≥ g.nSectors + bSectorStart g then
    let h := p.bHead + 1
    if h ≥ g.nHeads then
      { wCylinder := p.wCylinder + 1, bHead := 0, bSector := bSectorStart g }
    else
      { wCylinder := p.wCylinder, bHead := h, bSector := bSectorStart g }
  else
    { p with bSector := s }

/-- The sector-advance algorithm exactly as the claim words it: increment
the sector register; if it would exceed `sectorsPerTrack + bias - 1`, reset
it to `bias` and increment the head; if the head would exceed `heads - 1`,
reset it to 0 and increment the cylinder (here `bias` is the drive's
`bSectorBias`, i.e. 0 for ATC and 1 for XTC, as the claim states). This
definition follows the claim's words, not the source, and is compared with
`advanceSector` above. -/
def advanceSectorClaim (g : HDCGeom) (p : HDCPos) : HDCPos :=
  let s := p.bSector + 1
  if s > g.nSectors + g.bSectorBias - 1 then
    let h := p.bHead + 1
    if h > g.nHeads - 1 then
      { wCylinder := p.wCylinder + 1, bHead := 0, bSector := g.bSectorBias }
    else
      { wCylinder := p.wCylinder, bHead := h, bSector := g.bSectorBias }
  else
    { p with bSector := s }

/-- The sector-advance algorithm as amended: increment the sector register;
if it would exceed `sectorsPerTrack - bias` (that is, reach
`sectorsPerTrack + 1 - bias`), reset it to `1 - bias` and increment the
head; if the head would exceed `heads - 1`, reset it to 0 and increment the
cylinder. This definition follows the amended claim's words and is proved
equal to `advanceSector` for the two bias values that occur (0 and 1). -/
def advanceSectorAmended (g : HDCGeom) (p : HDCPos) : HDCPos :=
  let s := p.bSector + 1
  if s > g.nSectors - g.bSectorBias then
    let h := p.bHead + 1
    if h > g.nHeads - 1 then
      { wCylinder := p.wCylinder + 1, bHead := 0, bSector := 1 - g.bSectorBias }
    else
      { wCylinder := p.wCylinder, bHead := h, bSector := 1 - g.bSectorBias }
  else
    { p with bSector := s }

example : advanceSector ⟨306, 4, 17, 1⟩ ⟨0, 0, 16⟩ = ⟨0, 1, 0⟩ := by decide
example : advanceSectorClaim ⟨306, 4, 17, 1⟩ ⟨0, 0, 16⟩ = ⟨0, 0, 17⟩ := by decide
example : advanceSector ⟨615, 4, 17, 0⟩ ⟨0, 0, 17⟩ = ⟨0, 1, 1⟩ := by decide
example : advanceSectorAmended ⟨615, 4, 17, 0⟩ ⟨0, 0, 17⟩ = ⟨0, 1, 1⟩ := by decide

/-! ## XTC data-status and error constants (hdc.js) -/

/-- `HDC.XTC.DATA.STATUS_OK` (hdc.js line 302). -/
def XTC_STATUS_OK : Nat := 0x00

/-- `HDC.XTC.DATA.STATUS_ERROR` (hdc.js line 303). -/
def XTC_STATUS_ERROR : Nat := 0x02

/-- `HDC.XTC.DATA.ERR.NONE` (hdc.js line 390). -/
def XTC_ERR_NONE : Nat := 0x00

/-- `HDC.XTC.DATA.ERR.NOT_READY` (hdc.js line 394). -/
def XTC_ERR_NOT_READY : Nat := 0x04

/-- `HDC.XTC.DATA.ERR.NO_SECTOR` (hdc.js line 400). -/
def XTC_ERR_NO_SECTOR : Nat := 0x14

/-! ## XTC DMA session completion callbacks (hdc.js)

Each of `doDMARead`, `doDMAWrite` and `doDMAWriteBuffer` passes a completion
callback to the external `chipset.requestDMA`.  The callback receives the
`fComplete` flag; at that point the drive's `errorCode` holds whatever the
per-byte transfer functions left in it (`XTC_ERR_NONE` if no explicit failure
occurred).  Each function below takes that error code and the flag, and
returns the drive's final error code together with the data status byte
passed to `done` (before the drive-select bit is OR'ed in by `doXTC`). -/

/-- Completion callback of `HDC.prototype.doDMARead` (hdc.js lines
2293-2304): on an incomplete session with no explicit error, revert to the
default `NOT_READY` failure code; report `STATUS_ERROR` iff the final error
code is nonzero. -/
def doDMARead_complete (errorCode : Nat) (fComplete : Bool) : Nat × Nat :=
  let ec := if ¬fComplete ∧ errorCode = XTC_ERR_NONE then XTC_ERR_NOT_READY else errorCode
  (ec, if ec ≠ 0 then XTC_STATUS_ERROR else XTC_STATUS_OK)

/-- Completion callback of `HDC.prototype.doDMAWrite` (hdc.js lines
2337-2355): like the read case, but on an incomplete session any
`NO_SECTOR` error (an attempt to write beyond the end of the track) is
masked back to `NONE`. -/
def doDMAWrite_complete (errorCode : Nat) (fComplete : Bool) : Nat × Nat :=
  let ec1 := if ¬fComplete ∧ errorCode = XTC_ERR_NONE then XTC_ERR_NOT_READY else errorCode
  let ec2 := if ¬fComplete ∧ ec1 = XTC_ERR_NO_SECTOR then XTC_ERR_NONE else ec1
  (ec2, if ec2 ≠ 0 then XTC_STATUS_ERROR else XTC_STATUS_OK)

/-- Completion callback of `HDC.prototype.doDMAWriteBuffer` (hdc.js lines
2388-2399): identical in shape to the read case. -/
def doDMAWriteBuffer_complete (errorCode : Nat) (fComplete : Bool) : Nat × Nat :=
  let ec := if ¬fComplete ∧ errorCode = XTC_ERR_NONE then XTC_ERR_NOT_READY else errorCode
  (ec, if ec ≠ 0 then XTC_STATUS_ERROR else XTC_STATUS_OK)

example : doDMARead_complete XTC_ERR_NONE false = (XTC_ERR_NOT_READY, XTC_STATUS_ERROR) := by decide
example : doDMAWrite_complete XTC_ERR_NO_SECTOR false = (XTC_ERR_NONE, XTC_STATUS_OK) := by decide
example : doDMAWrite_complete XTC_ERR_NO_SECTOR true = (XTC_ERR_NO_SECTOR, XTC_STATUS_ERROR) := by decide

/-! ## FDC constants (part_002) -/

/-- `FDC.REG_OUTPUT.INT_ENABLE` (part_002 line 156). -/
def FDC_OUTPUT_INT_ENABLE : Nat := 0x08

/-- `FDC.REG_STATUS.BUSY` (part_002 line 174). -/
def FDC_STATUS_BUSY : Nat := 0x10

/-- `FDC.REG_STATUS.READ_DATA` (part_002 line 176). -/
def FDC_STATUS_READ_DATA : Nat := 0x40

/-- `FDC.REG_STATUS.RQM` (part_002 line 177). -/
def FDC_STATUS_RQM : Nat := 0x80

/-- `FDC.REG_DATA.ERR.NONE` (part_002 line 253). -/
def FDC_ERR_NONE : Nat := 0x000000

/-- `FDC.REG_DATA.ERR.NOT_READY` (part_002 line 254), ST0 bit NR. -/
def FDC_ERR_NOT_READY : Nat := 0x000008

/-- `FDC.REG_DATA.ERR.SEEK_END` (part_002 line 256), ST0 bit SE. -/
def FDC_ERR_SEEK_END : Nat := 0x000020

/-- `FDC.REG_DATA.ERR.INCOMPLETE` (part_002 line 257), ST0 abnormal termination. -/
def FDC_ERR_INCOMPLETE : Nat := 0x000040

/-- `FDC.REG_DATA.ERR.NOT_WRITABLE` (part_002 line 262), ST1 bit NW. -/
def FDC_ERR_NOT_WRITABLE : Nat := 0x000200

/-- `FDC.REG_DATA.ERR.NO_DATA` (part_002 line 263), ST1 bit ND. -/
def FDC_ERR_NO_DATA : Nat := 0x000400

/-- `FDC.REG_DATA.ERR.CRC_ERROR` (part_002 line 265), ST1 bit DE. -/
def FDC_ERR_CRC_ERROR : Nat := 0x002000

/-- `FDC.REG_DATA.ERR.ST0` mask (part_002 line 260). -/
def FDC_ERR_ST0 : Nat := 0x0000FF

/-- `FDC.REG_DATA.ERR.ST1` mask (part_002 line 267). -/
def FDC_ERR_ST1 : Nat := 0x00FF00

/-- `FDC.REG_DATA.ERR.ST2` mask (part_002 line 275). -/
def FDC_ERR_ST2 : Nat := 0xFF0000

/-! ## FDC drive and disk model (part_002) -/

/-- State of one FDC drive object, mirroring the fields that
`FDC.prototype.initDrive` establishes.  `hasDisk` stands for
`drive.disk != null` and `fWriteProtected` for `drive.disk.fWriteProtected`
(the Disk component itself is an external collaborator); `sector` holds the
id of the currently located sector, `null` when none. -/
structure FDCDrive where
  errorCode : Nat
  name : String
  nCylinders : Nat
  nHeads : Nat
  nSectors : Nat
  cbSector : Nat
  fRemovable : Bool
  bHead : Nat
  bCylinder : Nat
  bSector : Nat
  bSectorEnd : Nat
  nBytes : Nat
  ibSector : Nat
  sector : Option Nat
  bFiller : Nat
  hasDisk : Bool
  fWriteProtected : Bool
  sDisketteName : String
  sDiskettePath : String
deriving Inhabited

/-- Interface of the external Disk collaborator as the FDC uses it:
`read sectorId offset` returns the next byte or -1 when the sector is
exhausted, `write sectorId offset b` stores a byte and reports whether the
sector still had room, and `seek c h s` returns the id of the matching
sector, if any. -/
structure FDCDisk where
  read : Nat → Nat → Int
  write : Nat → Nat → Nat → Bool
  seek : Nat → Nat → Nat → Option Nat

/-- Loop body of `FDC.prototype.readByte` (part_002 lines 1835-1857),
with an explicit fuel bound on the number of loop iterations (the source's
`do ... while (true)` terminates because the disk is finite).  Reading from
the current sector increments `ibSector` even when the read fails, exactly
as `drive.disk.read(drive.sector, drive.ibSector++)` does; on a failed read
the next sector is located with `disk.seek(bCylinder, bHead, bSector)`, and
on a successful seek `ibSector` is reset and only `bSector` is incremented
(the FDC transfer loop never touches `bHead` or `bCylinder`). -/
def fdcReadByteLoop (dsk : FDCDisk) : Nat → FDCDrive → Int × FDCDrive
  | 0, d => (-1, d)
  | fuel + 1, d =>
    match d.sector with
    | some sec =>
      let b := dsk.read sec d.ibSector
      let d1 := { d with ibSector := d.ibSector + 1 }
      if 0 ≤ b then (b, d1)
      else
        match dsk.seek d1.bCylinder d1.bHead d1.bSector with
        | some sec2 =>
          fdcReadByteLoop dsk fuel
            { d1 with sector := some sec2, ibSector := 0, bSector := d1.bSector + 1 }
        | none => (-1, { d1 with errorCode := FDC_ERR_NO_DATA ||| FDC_ERR_INCOMPLETE })
    | none =>
      match dsk.seek d.bCylinder d.bHead d.bSector with
      | some sec2 =>
        fdcReadByteLoop dsk fuel
          { d with sector := some sec2, ibSector := 0, bSector := d.bSector + 1 }
      | none => (-1, { d with errorCode := FDC_ERR_NO_DATA ||| FDC_ERR_INCOMPLETE })

/-- Embedding of `FDC.prototype.readByte` (part_002 lines 1835-1857): the
loop runs only when the drive has no error code and a disk is mounted. -/
def fdcReadByte (dsk : FDCDisk) (fuel : Nat) (d : FDCDrive) : Int × FDCDrive :=
  if d.errorCode = 0 ∧ d.hasDisk then fdcReadByteLoop dsk fuel d else (-1, d)

/-- Loop body of `FDC.prototype.writeByte` (part_002 lines 1884-1908), with
an explicit fuel bound on the number of loop iterations.  Writing to the
current sector increments `ibSector` even when the sector is full, exactly
as `drive.disk.write(drive.sector, drive.ibSector++, b)` does; a truthy
write breaks out of the loop echoing the byte; otherwise the next sector is
located with `disk.seek(bCylinder, bHead, bSector)` and assigned to
`drive.sector` (leaving it cleared on a failed seek, which records
`CRC_ERROR | INCOMPLETE` and returns -1); on a successful seek `ibSector`
is reset and only `bSector` is incremented before the write is retried
(the FDC transfer loop never touches `bHead` or `bCylinder`). -/
def fdcWriteByteLoop (dsk : FDCDisk) (b : Nat) : Nat → FDCDrive → Int × FDCDrive
  | 0, d => (-1, d)
  | fuel + 1, d =>
    match d.sector with
    | some sec =>
      let ok := dsk.write sec d.ibSector b
      let d1 := { d with ibSector := d.ibSector + 1 }
      if ok then ((b : Int), d1)
      else
        match dsk.seek d1.bCylinder d1.bHead d1.bSector with
        | some sec2 =>
          fdcWriteByteLoop dsk b fuel
            { d1 with sector := some sec2, ibSector := 0, bSector := d1.bSector + 1 }
        | none => (-1, { d1 with sector := none, errorCode := FDC_ERR_CRC_ERROR ||| FDC_ERR_INCOMPLETE })
    | none =>
      match dsk.seek d.bCylinder d.bHead d.bSector with
      | some sec2 =>
        fdcWriteByteLoop dsk b fuel
          { d with sector := some sec2, ibSector := 0, bSector := d.bSector + 1 }
      | none => (-1, { d with sector := none, errorCode := FDC_ERR_CRC_ERROR ||| FDC_ERR_INCOMPLETE })

/-- Embedding of `FDC.prototype.writeByte` (part_002 lines 1884-1908): the
loop runs only when the drive has no error code and a disk is mounted. -/
def fdcWriteByte (dsk : FDCDisk) (b : Nat) (fuel : Nat) (d : FDCDrive) : Int × FDCDrive :=
  if d.errorCode = 0 ∧ d.hasDisk then fdcWriteByteLoop dsk b fuel d else (-1, d)

/-! ## HDC drive objects, drive-type table and geometry verification (hdc.js) -/

/-- State of one HDC drive object, mirroring the fields established by
`HDC.prototype.initDrive`.  `hasDisk` stands for `drive.disk != null`
(the Disk component is an external collaborator) and `sector` for the
currently located sector id (`null` when none). -/
structure HDCDrive where
  errorCode : Nat
  senseCode : Nat
  fRemovable : Bool
  abDriveParms : List Nat
  abSector : List Nat
  bHead : Nat
  nHeads : Nat
  wCylinder : Nat
  bSector : Nat
  bSectorEnd : Nat
  nBytes : Nat
  ibSector : Nat
  type : Nat
  nCylinders : Nat
  nSectors : Nat
  cbSector : Nat
  bSectorBias : Nat
  bControl : Nat
  sector : Option Nat
  hasDisk : Bool
deriving Inhabited

/-- The drive-type table `HDC.aDriveTypes` (hdc.js lines 137-185), indexed
first by controller index (`iHDC`: 0 for XTC, 1 for ATC) and then by drive
type; each entry gives (total cylinders, total heads).  Sectors/track and
bytes/sector are absent from every entry and default to 17 and 512. -/
def aDriveTypes (iHDC t : Nat) : Option (Nat × Nat) :=
  if iHDC = 0 then
    match t with
    | 0x00 => some (306, 2)
    | 0x01 => some (375, 8)
    | 0x02 => some (306, 6)
    | 0x03 => some (306, 4)
    | _ => none
  else
    match t with
    | 0x01 => some (306, 4)
    | 0x02 => some (615, 4)
    | 0x03 => some (615, 6)
    | 0x04 => some (940, 8)
    | 0x05 => some (940, 6)
    | 0x06 => some (615, 4)
    | 0x07 => some (462, 8)
    | 0x08 => some (733, 5)
    | 0x09 => some (900, 15)
    | 0x0A => some (820, 3)
    | 0x0B => some (855, 5)
    | 0x0C => some (855, 7)
    | 0x0D => some (306, 8)
    | 0x0E => some (733, 7)
    | _ => none

/-- Embedding of `HDC.prototype.verifyDrive` (hdc.js lines 985-1031) for the
call sites that pass no explicit type (restore and `INIT_DRIVE`): take the
head count from the third programmed drive-parameter byte and the cylinder
count from the first two (big-endian); when no parameters have been
programmed, fall back to the geometry of the drive's type.  The geometry
mismatch check only logs a warning, so it has no state effect; the creation
of an empty Disk happens in the external Disk component. -/
def verifyDrive (iHDC : Nat) (d : HDCDrive) : HDCDrive :=
  let nHeadsP := d.abDriveParms.getD 2 0
  if nHeadsP ≠ 0 then
    { d with nCylinders := ((d.abDriveParms.getD 0 0) <<< 8) ||| d.abDriveParms.getD 1 0,
             nHeads := nHeadsP }
  else
    match aDriveTypes iHDC d.type with
    | some ch => { d with nCylinders := ch.1, nHeads := ch.2 }
    | none => d

/-! ## XTC register-status bits and command opcodes (hdc.js) -/

/-- `HDC.XTC.STATUS.REQ` (hdc.js line 317). -/
def XTC_STAT_REQ : Nat := 0x01

/-- `HDC.XTC.STATUS.IOMODE` (hdc.js line 318). -/
def XTC_STAT_IOMODE : Nat := 0x02

/-- `HDC.XTC.STATUS.BUS` (hdc.js line 319). -/
def XTC_STAT_BUS : Nat := 0x04

/-- `HDC.XTC.STATUS.BUSY` (hdc.js line 320). -/
def XTC_STAT_BUSY : Nat := 0x08

/-- `HDC.XTC.STATUS.INTERRUPT` (hdc.js line 321). -/
def XTC_STAT_INTERRUPT : Nat := 0x20

/-- `HDC.XTC.DATA.CMD.TEST_READY` (hdc.js line 365). -/
def XTC_CMD_TEST_READY : Nat := 0x00

/-- `HDC.XTC.DATA.CMD.RECALIBRATE` (hdc.js line 366). -/
def XTC_CMD_RECALIBRATE : Nat := 0x01

/-- `HDC.XTC.DATA.CMD.REQUEST_SENSE` (hdc.js line 367). -/
def XTC_CMD_REQUEST_SENSE : Nat := 0x03

/-- `HDC.XTC.DATA.CMD.READ_VERF` (hdc.js line 369). -/
def XTC_CMD_READ_VERF : Nat := 0x05

/-- `HDC.XTC.DATA.CMD.READ_DATA` (hdc.js line 372). -/
def XTC_CMD_READ_DATA : Nat := 0x08

/-- `HDC.XTC.DATA.CMD.WRITE_DATA` (hdc.js line 373). -/
def XTC_CMD_WRITE_DATA : Nat := 0x0A

/-- `HDC.XTC.DATA.CMD.INIT_DRIVE` (hdc.js line 375). -/
def XTC_CMD_INIT_DRIVE : Nat := 0x0C

/-- `HDC.XTC.DATA.CMD.WRITE_BUFFER` (hdc.js line 378). -/
def XTC_CMD_WRITE_BUFFER : Nat := 0x0F

/-- `HDC.XTC.DATA.CMD.RAM_DIAGNOSTIC` (hdc.js line 379). -/
def XTC_CMD_RAM_DIAGNOSTIC : Nat := 0xE0

/-- `HDC.XTC.DATA.CMD.CTL_DIAGNOSTIC` (hdc.js line 381). -/
def XTC_CMD_CTL_DIAGNOSTIC : Nat := 0xE4

/-! ## XTC DMA sessions (hdc.js)

The DMA controller is an external collaborator: once a session is connected
via `chipset.connectDMA`/`requestDMA`, the peer drives the per-byte
callbacks and eventually fires the completion callback.  `DMAOutcome`
packages the peer's observable effect: how the drive object was mutated by
the per-byte transfer (`transfer`) and the `fComplete` flag of the
completion callback.  A machine without a ChipSet component is subsumed by
`transfer = id, fComplete = true` (in that case the source falls through
to `done` with the error code still `NONE`). -/

/-- Observable effect of the external DMA peer on one session. -/
structure DMAOutcome where
  transfer : HDCDrive → HDCDrive
  fComplete : Bool

/-- Embedding of `HDC.prototype.doDMARead` (hdc.js lines 2274-2309):
default the error code to `NOT_READY`; with a disk attached, reset it to
`NONE`, run the transfer, and apply the completion callback; the returned
byte is the data status passed to `done`. -/
def doDMARead (dma : DMAOutcome) (d : HDCDrive) : HDCDrive × Nat :=
  let d := { d with errorCode := XTC_ERR_NOT_READY }
  if d.hasDisk then
    let d := dma.transfer { d with errorCode := XTC_ERR_NONE, sector := none }
    let r := doDMARead_complete d.errorCode dma.fComplete
    ({ d with errorCode := r.1 }, r.2)
  else
    (d, if d.errorCode ≠ 0 then XTC_STATUS_ERROR else XTC_STATUS_OK)

/-- Embedding of `HDC.prototype.doDMAWrite` (hdc.js lines 2318-2360), with
the `doDMAWrite_complete` callback. -/
def doDMAWrite (dma : DMAOutcome) (d : HDCDrive) : HDCDrive × Nat :=
  let d := { d with errorCode := XTC_ERR_NOT_READY }
  if d.hasDisk then
    let d := dma.transfer { d with errorCode := XTC_ERR_NONE, sector := none }
    let r := doDMAWrite_complete d.errorCode dma.fComplete
    ({ d with errorCode := r.1 }, r.2)
  else
    (d, if d.errorCode ≠ 0 then XTC_STATUS_ERROR else XTC_STATUS_OK)

/-- Embedding of `HDC.prototype.doDMAWriteBuffer` (hdc.js lines 2369-2403):
no disk is involved; the sector buffer is reallocated when its size does not
match the transfer length (a fresh JavaScript `Array(n)` is modelled as
`n` zeros), the buffer cursor is reset, and the session runs with the
`doDMAWriteBuffer_complete` callback. -/
def doDMAWriteBuffer (dma : DMAOutcome) (d : HDCDrive) : HDCDrive × Nat :=
  let d := { d with errorCode := XTC_ERR_NOT_READY }
  let d := if d.abSector.length ≠ d.nBytes
           then { d with abSector := List.replicate d.nBytes 0 } else d
  let d := { d with ibSector := 0 }
  let d := dma.transfer { d with errorCode := XTC_ERR_NONE }
  let r := doDMAWriteBuffer_complete d.errorCode dma.fComplete
  ({ d with errorCode := r.1 }, r.2)

/-! ## XTC controller state and the doXTC command dispatcher (hdc.js) -/

/-- XTC-variant controller state: the registers initialized by
`HDC.prototype.initController` (hdc.js lines 703-722) plus the drive array
and a flag recording whether the controller's interrupt request is raised
(`chipset.setIRR(IRQ.XTC)` / `clearIRR`).  A missing drive (`aDrives[i]`
past the configured drives) is `none`. -/
structure XTCState where
  regConfig : Nat
  regStatus : Nat
  regDataArray : List Nat
  regDataIndex : Nat
  regDataTotal : Nat
  regReset : Nat
  regPulse : Nat
  regPattern : Nat
  iDriveAllowFail : Int
  drives : List (Option HDCDrive)
  irqPending : Bool
deriving Inhabited

/-- Embedding of `HDC.prototype.beginResult` followed by one
`pushResult` per listed byte (hdc.js lines 2156-2187): reset the FIFO
indices, store the result bytes, raise the XTC interrupt and set the
INTERRUPT status bit.  Slots of `regDataArray` beyond `regDataTotal` are
never read, so the model keeps exactly the result bytes. -/
def beginResultList (s : XTCState) (bs : List Nat) : XTCState :=
  { s with regDataArray := bs, regDataIndex := 0, regDataTotal := bs.length,
           irqPending := true, regStatus := s.regStatus ||| XTC_STAT_INTERRUPT }

/-- Embedding of `HDC.prototype.doXTC` (hdc.js lines 1978-2129).  The six
Device Control Block bytes are decoded from the command FIFO (`outXTCData`
only invokes `doXTC` once at least 6 bytes, or 14 for `INIT_DRIVE`, have
accumulated, so the FIFO holds a full DCB); drive-ambivalent commands are
handled first, then commands that require an existing drive, with DMA
commands parameterized by the peer's `DMAOutcome`. -/
def doXTC (dma : DMAOutcome) (s : XTCState) : XTCState :=
  let cmdBytes := s.regDataArray.take s.regDataTotal
  let bCmd := cmdBytes.getD 0 0
  let b1 := cmdBytes.getD 1 0
  let bDrive := b1 &&& 0x20
  let iDrive := bDrive >>> 5
  let bHead := b1 &&& 0x1F
  let b2 := cmdBytes.getD 2 0
  let b3 := cmdBytes.getD 3 0
  let wCylinder := ((b2 <<< 2) &&& 0x300) ||| b3
  let bSector := b2 &&& 0x3F
  let bCount := cmdBytes.getD 4 0
  let bControl := cmdBytes.getD 5 0
  let driveOpt := (s.drives.getD iDrive none).map fun d =>
    { d with wCylinder := wCylinder, bHead := bHead, bSector := bSector,
             nBytes := bCount * d.cbSector }
  let s := { s with drives := s.drives.set iDrive driveOpt }
  if bCmd = XTC_CMD_REQUEST_SENSE then
    let ec := match driveOpt with
              | some d => d.errorCode
              | none => XTC_ERR_NOT_READY
    beginResultList s [ec, b1, b2, b3, XTC_STATUS_OK ||| bDrive]
  else if bCmd = XTC_CMD_INIT_DRIVE then
    let extra := cmdBytes.drop 6
    let driveOpt2 := driveOpt.map fun d =>
      let k := min extra.length d.abDriveParms.length
      verifyDrive 0 { d with abDriveParms := extra.take k ++ d.abDriveParms.drop k }
    let s := { s with drives := s.drives.set iDrive driveOpt2 }
    let fakeFail := driveOpt.isNone ∧ s.iDriveAllowFail = (iDrive : Int)
    let s := if fakeFail then { s with iDriveAllowFail := -1 } else s
    let bDataStatus := if fakeFail then XTC_STATUS_ERROR else XTC_STATUS_OK
    beginResultList s [bDataStatus ||| bDrive]
  else if bCmd = XTC_CMD_RAM_DIAGNOSTIC ∨ bCmd = XTC_CMD_CTL_DIAGNOSTIC then
    beginResultList s [XTC_STATUS_OK ||| bDrive]
  else
    match driveOpt with
    | none => beginResultList s [XTC_STATUS_ERROR ||| bDrive]
    | some d0 =>
      let d := { d0 with errorCode := XTC_ERR_NONE, senseCode := 0 }
      if bCmd = XTC_CMD_TEST_READY then
        beginResultList { s with drives := s.drives.set iDrive (some d) }
          [XTC_STATUS_OK ||| bDrive]
      else if bCmd = XTC_CMD_RECALIBRATE then
        beginResultList
          { s with drives := s.drives.set iDrive (some { d with bControl := bControl }) }
          [XTC_STATUS_OK ||| bDrive]
      else if bCmd = XTC_CMD_READ_VERF then
        beginResultList { s with drives := s.drives.set iDrive (some d) }
          [XTC_STATUS_OK ||| bDrive]
      else if bCmd = XTC_CMD_READ_DATA then
        let r := doDMARead dma d
        beginResultList { s with drives := s.drives.set iDrive (some r.1) }
          [r.2 ||| bDrive]
      else if bCmd = XTC_CMD_WRITE_DATA then
        let r := doDMAWrite dma d
        beginResultList { s with drives := s.drives.set iDrive (some r.1) }
          [r.2 ||| bDrive]
      else if bCmd = XTC_CMD_WRITE_BUFFER then
        let r := doDMAWriteBuffer dma d
        beginResultList { s with drives := s.drives.set iDrive (some r.1) }
          [r.2 ||| bDrive]
      else
        beginResultList { s with drives := s.drives.set iDrive (some d) }
          [XTC_STATUS_ERROR ||| bDrive]

/-- Effect on the FIFO of the host issuing a fresh command block through
`outXTCData` (hdc.js lines 1242-1266) after the previous Result Phase:
the data bytes accumulate from index 0 and `doXTC` fires once the full
block is present. -/
def rewriteCommand (s : XTCState) (bytes : List Nat) : XTCState :=
  { s with regDataArray := bytes, regDataIndex := 0, regDataTotal := bytes.length }

/-! ## ATC registers and command preamble (hdc.js) -/

/-- ATC-variant controller registers, as initialized by
`HDC.prototype.initController` (hdc.js lines 689-699). -/
structure ATCRegs where
  regError : Nat
  regWPreC : Nat
  regSecCnt : Nat
  regSecNum : Nat
  regCylLo : Nat
  regCylHi : Nat
  regDrvHd : Nat
  regStatus : Nat
  regCommand : Nat
  regFDR : Nat
deriving Inhabited

/-- Drive index selected by the Drive-Head register:
`this.regDrvHd & HDC.ATC.DRVHD.DRIVE_MASK ? 1 : 0` (hdc.js line 1797). -/
def atcDriveIndex (r : ATCRegs) : Nat :=
  if r.regDrvHd &&& 0x10 ≠ 0 then 1 else 0

/-- Embedding of the command preamble of `HDC.prototype.doATC` (hdc.js
lines 1792-1832), which runs for every ATC command before the opcode
switch: decode head, cylinder, sector and sector count from the task-file
registers (a Sector Count of 0 means a 256-sector request) and update the
selected drive's positional state; returns `none` when the selected drive
does not exist (in which case the switch sees `bCmd = -1`). -/
def doATCPrepare (r : ATCRegs) (drives : List (Option HDCDrive)) : Option HDCDrive :=
  let nHead := r.regDrvHd &&& 0x0F
  let nCylinder := r.regCylLo ||| ((r.regCylHi &&& 0x03) <<< 8)
  let nSector := r.regSecNum
  let nSectors := if r.regSecCnt = 0 then 256 else r.regSecCnt
  (drives.getD (atcDriveIndex r) none).map fun d =>
    { d with wCylinder := nCylinder, bHead := nHead, bSector := nSector,
             nBytes := nSectors * d.cbSector,
             sector := none, ibSector := 0, errorCode := 0 }

/-! ## FDC controller state and port handlers (part_002) -/

/-- FDC controller state: the registers initialized by
`FDC.prototype.initController` (part_002 lines 567-643) plus the drive
array and a flag recording whether the FDC interrupt request is raised
(`chipset.setIRR(IRQ.FDC)` / `clearIRR`). -/
structure FDCState where
  iDrive : Nat
  iUnit : Nat
  regStatus : Nat
  regDataArray : List Nat
  regDataIndex : Nat
  regDataTotal : Nat
  regOutput : Nat
  regInput : Nat
  regControl : Nat
  drives : List FDCDrive
  irqPending : Bool
deriving Inhabited

/-- Embedding of `FDC.prototype.inFDCStatus` (part_002 lines 1253-1257):
return the Main Status register; the handler reads state only. -/
def inFDCStatus (s : FDCState) : Nat × FDCState :=
  (s.regStatus, s)

/-- Embedding of `FDC.prototype.inFDCData` (part_002 lines 1267-1285):
return the next result byte; when the Output register's interrupt-enable
bit is set, clear the pending FDC interrupt; advance the FIFO read index,
and when the Result Phase is drained reset the FIFO and clear the
READ_DATA and BUSY status bits (status bits live in one byte, so the
source's `&= ~(READ_DATA | BUSY)` is `&&& 0xAF`). -/
def inFDCData (s : FDCState) : Nat × FDCState :=
  let bIn := if s.regDataIndex < s.regDataTotal then s.regDataArray.getD s.regDataIndex 0 else 0
  let irq := if s.regOutput &&& FDC_OUTPUT_INT_ENABLE ≠ 0 then false else s.irqPending
  let i := s.regDataIndex + 1
  if i ≥ s.regDataTotal then
    (bIn, { s with irqPending := irq, regStatus := s.regStatus &&& 0xAF,
                   regDataIndex := 0, regDataTotal := 0 })
  else
    (bIn, { s with irqPending := irq, regDataIndex := i })

/-! ## FDC command execution (part_002) -/

/-- The FDC command-sequence table `FDC.aCmdSeqs` (part_002 lines 283-292):
for each masked opcode, the total number of command-request bytes
(`cbWrite`, including the opcode byte) and result bytes (`cbRead`). -/
def aCmdSeqs (bCmdMasked : Nat) : Option (Nat × Nat) :=
  match bCmdMasked with
  | 0x03 => some (3, 0)
  | 0x04 => some (2, 1)
  | 0x05 => some (9, 7)
  | 0x06 => some (9, 7)
  | 0x07 => some (2, 0)
  | 0x08 => some (1, 2)
  | 0x0D => some (6, 7)
  | 0x0F => some (3, 0)
  | _ => none

/-- Value pushed by `FDC.prototype.pushST0` (part_002 lines 1623-1626):
the unit number OR'ed with the drive's head and the ST0 byte of the error
code. -/
def st0Byte (iUnit bHead errorCode : Nat) : Nat :=
  iUnit ||| bHead ||| (errorCode &&& FDC_ERR_ST0)

/-- Value pushed by `FDC.prototype.pushST1` (part_002 lines 1634-1637). -/
def st1Byte (errorCode : Nat) : Nat :=
  (errorCode &&& FDC_ERR_ST1) >>> 8

/-- Value pushed by `FDC.prototype.pushST2` (part_002 lines 1645-1648). -/
def st2Byte (errorCode : Nat) : Nat :=
  (errorCode &&& FDC_ERR_ST2) >>> 16

/-- Embedding of `FDC.prototype.beginResult` (part_002 lines 1599-1602)
followed by one `pushResult` per listed byte: reset the FIFO indices and
store the result bytes (slots beyond `regDataTotal` are never read). -/
def fdcBeginResult (s : FDCState) (bs : List Nat) : FDCState :=
  { s with regDataArray := bs, regDataIndex := 0, regDataTotal := bs.length }

/-- Embedding of `FDC.prototype.doRead` (part_002 lines 1729-1747):
default the error code to `NOT_READY | INCOMPLETE`; with a disk mounted,
clear it and hand the drive to the DMA peer (`connectDMA`/`requestDMA` on
the external ChipSet), whose per-byte pulls run `readByte`.  The peer's
effect on the drive is the `peer` parameter; a machine without a ChipSet
corresponds to `peer = id`. -/
def doRead (peer : FDCDrive → FDCDrive) (d : FDCDrive) : FDCDrive :=
  let d := { d with errorCode := FDC_ERR_NOT_READY ||| FDC_ERR_INCOMPLETE }
  if d.hasDisk then peer { d with sector := none, errorCode := FDC_ERR_NONE } else d

/-- Embedding of `FDC.prototype.doWrite` (part_002 lines 1755-1773): like
`doRead`, but a write-protected disk fails immediately with
`NOT_WRITABLE | INCOMPLETE` and no DMA session is opened. -/
def doWrite (peer : FDCDrive → FDCDrive) (d : FDCDrive) : FDCDrive :=
  let d := { d with errorCode := FDC_ERR_NOT_READY ||| FDC_ERR_INCOMPLETE }
  if d.hasDisk then
    if d.fWriteProtected then
      { d with errorCode := FDC_ERR_NOT_WRITABLE ||| FDC_ERR_INCOMPLETE }
    else
      peer { d with sector := none, errorCode := FDC_ERR_NONE }
  else d

/-- Embedding of `FDC.prototype.doFormat` (part_002 lines 1790-1809): the
format-state fields (`abFormat`, `cbFormat`, `cSectorsFormatted`) live
inside the peer's byte loop (`writeFormat`), so the model mirrors the
error-code defaulting and the hand-off to the peer. -/
def doFormat (peer : FDCDrive → FDCDrive) (d : FDCDrive) : FDCDrive :=
  let d := { d with errorCode := FDC_ERR_NOT_READY ||| FDC_ERR_INCOMPLETE }
  if d.hasDisk then peer { d with sector := none, errorCode := FDC_ERR_NONE } else d

/-- The command-phase field updates of the `WRITE_DATA`/`READ_DATA` branch
of `FDC.prototype.doCmd` (part_002 lines 1448-1462): decode unit and head
select from the first request byte, then C, H (asserted equal to the head
select), R, N (with `nBytes = 128 << N`), EOT, and consume the GPL and DTL
bytes; returns the selected unit, the size code N and the updated drive. -/
def readWriteSetup (s : FDCState) : Nat × Nat × FDCDrive :=
  let b1 := s.regDataArray.getD 1 0
  let bHeadSelect := (b1 >>> 2) &&& 0x1
  let iUnit := b1 &&& 0x3
  let d := s.drives.getD iUnit default
  let n := s.regDataArray.getD 5 0
  (iUnit, n,
    { d with bHead := bHeadSelect,
             bCylinder := s.regDataArray.getD 2 0,
             bSector := s.regDataArray.getD 4 0,
             nBytes := 128 <<< n,
             bSectorEnd := s.regDataArray.getD 6 0 })

/-- The switch of `FDC.prototype.doCmd` (part_002 lines 1431-1529) on the
masked opcode: produces the post-command state, the `fIRQ` flag, and
whether the branch assigned the local `drive` variable. -/
def doCmdCore (peer : FDCDrive → FDCDrive) (s : FDCState) : FDCState × Bool × Bool :=
  let bCmdMasked := s.regDataArray.getD 0 0 &&& 0x1F
  if bCmdMasked = 0x03 then
      (fdcBeginResult s [], false, false)
    else if bCmdMasked = 0x04 then
      let iUnit := s.regDataArray.getD 1 0 &&& 0x3
      (fdcBeginResult { s with iUnit := iUnit } [0x00], false, true)
    else if bCmdMasked = 0x05 then
      let t := readWriteSetup s
      let d2 := doWrite peer t.2.2
      let s1 := { s with iUnit := t.1, drives := s.drives.set t.1 d2 }
      (fdcBeginResult s1
        [st0Byte t.1 d2.bHead d2.errorCode, st1Byte d2.errorCode, st2Byte d2.errorCode,
         d2.bCylinder, d2.bHead, d2.bSector, t.2.1], true, true)
    else if bCmdMasked = 0x06 then
      let t := readWriteSetup s
      let d2 := doRead peer t.2.2
      let s1 := { s with iUnit := t.1, drives := s.drives.set t.1 d2 }
      (fdcBeginResult s1
        [st0Byte t.1 d2.bHead d2.errorCode, st1Byte d2.errorCode, st2Byte d2.errorCode,
         d2.bCylinder, d2.bHead, d2.bSector, t.2.1], true, true)
    else if bCmdMasked = 0x07 then
      let iUnit := s.regDataArray.getD 1 0 &&& 0x3
      let d := s.drives.getD iUnit default
      let d2 := { d with bCylinder := 0, errorCode := FDC_ERR_SEEK_END }
      (fdcBeginResult { s with iUnit := iUnit, drives := s.drives.set iUnit d2 } [],
       true, true)
    else if bCmdMasked = 0x08 then
      let iUnit := s.iDrive
      let d := s.drives.getD iUnit default
      (fdcBeginResult { s with iUnit := iUnit }
        [st0Byte iUnit d.bHead d.errorCode, d.bCylinder], false, true)
    else if bCmdMasked = 0x0D then
      let b1 := s.regDataArray.getD 1 0
      let iUnit := b1 &&& 0x3
      let d := s.drives.getD iUnit default
      let n := s.regDataArray.getD 2 0
      let d1 := { d with bHead := (b1 >>> 2) &&& 0x1,
                         nBytes := 128 <<< n,
                         bSectorEnd := s.regDataArray.getD 3 0,
                         bFiller := s.regDataArray.getD 5 0 }
      let d2 := doFormat peer d1
      let s1 := { s with iUnit := iUnit, drives := s.drives.set iUnit d2 }
      (fdcBeginResult s1
        [st0Byte iUnit d2.bHead d2.errorCode, st1Byte d2.errorCode, st2Byte d2.errorCode,
         d2.bCylinder, d2.bHead, d2.bSector, n], true, true)
    else if bCmdMasked = 0x0F then
      let b1 := s.regDataArray.getD 1 0
      let iUnit := b1 &&& 0x3
      let d := s.drives.getD iUnit default
      let d2 := { d with bHead := (b1 >>> 2) &&& 0x1,
                         bCylinder := s.regDataArray.getD 2 0,
                         errorCode := FDC_ERR_SEEK_END }
      (fdcBeginResult { s with iUnit := iUnit, drives := s.drives.set iUnit d2 } [],
       true, true)
    else
      ({ s with regDataIndex := 1 }, false, false)

/-- The epilogue of `FDC.prototype.doCmd` (part_002 lines 1531-1545): set
the READ_DATA and BUSY status bits when a Result Phase is present, then
raise the FDC interrupt exactly when the Output register's
interrupt-enable bit is set, a drive was addressed, its error code has no
NOT_READY bit, and `fIRQ` was set by the command branch. -/
def doCmdFinish (res : FDCState × Bool × Bool) : FDCState :=
  let s1 := res.1
  let s2 := if 0 < s1.regDataTotal
            then { s1 with regStatus := s1.regStatus ||| (FDC_STATUS_READ_DATA ||| FDC_STATUS_BUSY) }
            else s1
  if s2.regOutput &&& FDC_OUTPUT_INT_ENABLE ≠ 0 ∧ res.2.2
     ∧ (s2.drives.getD s2.iUnit default).errorCode &&& FDC_ERR_NOT_READY = 0 ∧ res.2.1
  then { s2 with irqPending := true }
  else s2

/-- Embedding of `FDC.prototype.doCmd` (part_002 lines 1412-1546): the
command switch followed by the status/interrupt epilogue. -/
def doCmd (peer : FDCDrive → FDCDrive) (s : FDCState) : FDCState :=
  doCmdFinish (doCmdCore peer s)

/-- The set of FDC commands whose Execution Phase ends with an interrupt
(those for which `doCmd` sets `fIRQ`): `WRITE_DATA`, `READ_DATA`,
`RECALIBRATE`, `FORMAT_TRACK` and `SEEK`. -/
def cmdSignalsIRQ (bCmdMasked : Nat) : Bool :=
  bCmdMasked = 0x05 ∨ bCmdMasked = 0x06 ∨ bCmdMasked = 0x07 ∨
  bCmdMasked = 0x0D ∨ bCmdMasked = 0x0F

/-! ## Save/Restore codec (hdc.js saveController/initController,
part_002 saveController/initController)

The controllers flatten their state into positional arrays whose slots hold
numbers, strings, booleans, flat number arrays, or nested arrays.  `SVal`
captures exactly these shapes; the `sv...` accessors read a slot by index
with a default, mirroring the `data[i++]` reads of `initController` and
`initDrive`. -/

/-- One slot of a positional save array. -/
inductive SVal where
  | num (n : Nat)
  | inum (n : Int)
  | str (s : String)
  | flag (b : Bool)
  | nums (l : List Nat)
  | arr (l : List SVal)
  | null
deriving Inhabited

/-- Read a numeric slot, with a default for a missing or non-numeric slot. -/
def svNum (l : List SVal) (i : Nat) (dflt : Nat) : Nat :=
  match l.getD i SVal.null with
  | .num n => n
  | _ => dflt

/-- Read an integer slot (used for `iDriveAllowFail`, which can be -1). -/
def svInt (l : List SVal) (i : Nat) (dflt : Int) : Int :=
  match l.getD i SVal.null with
  | .inum n => n
  | _ => dflt

/-- Read a string slot. -/
def svStr (l : List SVal) (i : Nat) (dflt : String) : String :=
  match l.getD i SVal.null with
  | .str s => s
  | _ => dflt

/-- Read a boolean slot. -/
def svFlag (l : List SVal) (i : Nat) (dflt : Bool) : Bool :=
  match l.getD i SVal.null with
  | .flag b => b
  | _ => dflt

/-- Read a flat number-array slot. -/
def svNums (l : List SVal) (i : Nat) : List Nat :=
  match l.getD i SVal.null with
  | .nums v => v
  | _ => []

/-- Read a nested-array slot. -/
def svArr (l : List SVal) (i : Nat) : List SVal :=
  match l.getD i SVal.null with
  | .arr v => v
  | _ => []

/-- JavaScript `x || dflt` on a number slot: 0 falls back to the default. -/
def orZero (n dflt : Nat) : Nat := if n = 0 then dflt else n

/-! ### HDC drive save/restore (hdc.js saveDrive/initDrive) -/

/-- Embedding of `HDC.prototype.saveDrive` (hdc.js lines 933-951); the
last slot holds `drive.disk.save()`, produced by the external Disk
component, modelled as `null`. -/
def saveHDCDrive (d : HDCDrive) : List SVal :=
  [.num d.errorCode, .num d.senseCode, .flag d.fRemovable,
   .nums d.abDriveParms, .nums d.abSector,
   .num d.bHead, .num d.nHeads, .num d.wCylinder, .num d.bSector,
   .num d.bSectorEnd, .num d.nBytes, .num d.ibSector, .null]

/-- The default drive data of `HDC.prototype.initDrive` (hdc.js line 811):
`[HDC.XTC.DATA.ERR.NONE, 0, false, new Array(8)]`. -/
def hdcDefaultDriveData : List SVal :=
  [.num XTC_ERR_NONE, .num 0, .flag false, .nums (List.replicate 8 0)]

/-- Embedding of the restore path of `HDC.prototype.initDrive` (hdc.js
lines 807-909): read the saved slots positionally; geometry counters
(`nSectors`, `cbSector`) are re-derived from the drive-type table, every
entry of which omits the optional sectors/bytes values, so they are the
defaults 17 and 512; `verifyDrive` then recomputes `nCylinders`/`nHeads`
from the programmed parameter bytes or the drive type.  Re-seeking
`drive.sector` is performed by the external Disk component, modelled as
`none`; the mounted disk itself is retained (`hasDisk` unchanged). -/
def restoreHDCDrive (fATC : Bool) (old : HDCDrive) (data : List SVal) : HDCDrive :=
  let d := { old with
    errorCode := svNum data 0 0,
    senseCode := svNum data 1 0,
    fRemovable := svFlag data 2 false,
    abDriveParms := svNums data 3,
    abSector := svNums data 4,
    bHead := svNum data 5 0,
    nHeads := svNum data 6 0,
    wCylinder := svNum data 7 0,
    bSector := svNum data 8 0,
    bSectorEnd := svNum data 9 0,
    nBytes := svNum data 10 0,
    bSectorBias := if fATC then 0 else 1,
    nSectors := 17,
    cbSector := 512 }
  let d := verifyDrive (if fATC then 1 else 0) d
  { d with ibSector := svNum data 11 0, sector := none }

/-- Restore of a whole HDC drive array: `initController` iterates over the
controller's own drive slots, reading the matching entry of the saved
drives array (hdc.js lines 732-749); a missing entry falls back to the
default drive data. -/
def restoreHDCDrives (fATC : Bool) (old : List (Option HDCDrive))
    (dataList : List SVal) : List (Option HDCDrive) :=
  (List.range old.length).map fun i =>
    (old.getD i none).map fun d =>
      match dataList.getD i SVal.null with
      | SVal.arr l => restoreHDCDrive fATC d l
      | _ => restoreHDCDrive fATC d hdcDefaultDriveData

/-! ### HDC controller save/restore (hdc.js saveController/initController) -/

/-- Embedding of the ATC branch of `HDC.prototype.saveController` (hdc.js
lines 766-776, 788-789): the ten task-file registers in order, then the
drives array. -/
def saveATCController (r : ATCRegs) (drives : List (Option HDCDrive)) : List SVal :=
  [.num r.regError, .num r.regWPreC, .num r.regSecCnt, .num r.regSecNum,
   .num r.regCylLo, .num r.regCylHi, .num r.regDrvHd, .num r.regStatus,
   .num r.regCommand, .num r.regFDR,
   .arr (drives.map fun od =>
     match od with
     | some d => SVal.arr (saveHDCDrive d)
     | none => SVal.null)]

/-- Embedding of the ATC branch of `HDC.prototype.initController` (hdc.js
lines 689-699) restricted to the register reads. -/
def restoreATCRegs (data : List SVal) : ATCRegs :=
  { regError := svNum data 0 0, regWPreC := svNum data 1 0,
    regSecCnt := svNum data 2 0, regSecNum := svNum data 3 0,
    regCylLo := svNum data 4 0, regCylHi := svNum data 5 0,
    regDrvHd := svNum data 6 0, regStatus := svNum data 7 0,
    regCommand := svNum data 8 0, regFDR := svNum data 9 0 }

/-- The XTC drive-type bits OR'ed into `regConfig` for drives 0 and 1
during `initController` (hdc.js lines 746-748):
`regConfig |= (drive.type & 0x3) << ((1 - iDrive) << 1)`. -/
def applyConfigBits (cfg : Nat) (types : List Nat) : Nat :=
  match types with
  | [] => cfg
  | [t0] => cfg ||| ((t0 &&& 0x3) <<< 2)
  | t0 :: t1 :: _ => (cfg ||| ((t0 &&& 0x3) <<< 2)) ||| ((t1 &&& 0x3) <<< 0)

/-- Embedding of the XTC branch of `HDC.prototype.saveController` (hdc.js
lines 778-789): config, status, FIFO array and indices, reset/pulse/pattern
ports, the `iDriveAllowFail` BIOS-hack flag, then the drives array. -/
def saveXTCController (s : XTCState) : List SVal :=
  [.num s.regConfig, .num s.regStatus, .nums s.regDataArray,
   .num s.regDataIndex, .num s.regDataTotal, .num s.regReset,
   .num s.regPulse, .num s.regPattern, .inum s.iDriveAllowFail,
   .arr (s.drives.map fun od =>
     match od with
     | some d => SVal.arr (saveHDCDrive d)
     | none => SVal.null)]

/-- Embedding of the XTC branch of `HDC.prototype.initController` (hdc.js
lines 704-749): read the slots positionally; a saved `iDriveAllowFail`
value wins over the current one; the per-drive loop then restores each
drive and ORs its type bits back into `regConfig`; `types` lists the
configured drive types used for those bits. -/
def restoreXTCController (old : XTCState) (types : List Nat) (data : List SVal) : XTCState :=
  { old with
    regConfig := applyConfigBits (svNum data 0 0) types,
    regStatus := svNum data 1 0,
    regDataArray := svNums data 2,
    regDataIndex := svNum data 3 0,
    regDataTotal := svNum data 4 0,
    regReset := svNum data 5 0,
    regPulse := svNum data 6 0,
    regPattern := svNum data 7 0,
    iDriveAllowFail := svInt data 8 old.iDriveAllowFail,
    drives := restoreHDCDrives false old.drives (svArr data 9) }

/-! ### FDC drive and controller save/restore (part_002) -/

/-- `FDC.REG_DATA.ERR.RESET` (part_002 line 258), the error code a freshly
initialized FDC drive starts with. -/
def FDC_ERR_RESET : Nat := 0x0000C0

/-- Marker standing for `Computer.VERSION_102` (a constant of the external
Computer component), stored in place of per-disk deltas from save format
v1.02 on (part_002 lines 826-835). -/
def VERSION_102 : SVal := .str "1.02"

/-- Test whether a slot holds the `Computer.VERSION_102` marker
(the `deltas === Computer.VERSION_102` comparison of part_002 line 752). -/
def svIsV102 (v : SVal) : Bool :=
  match v with
  | .str s => s == "1.02"
  | _ => false

/-- Embedding of `FDC.prototype.saveDrive` (part_002 lines 812-839): error
code, a geometry sub-array, the position and cursor slots (with a -1
placeholder where `nHeads` used to be stored), then the v1.02 marker and
the mounted diskette's name and path. -/
def saveFDCDrive (d : FDCDrive) : List SVal :=
  [.num d.errorCode,
   .arr [.str d.name, .num d.nCylinders, .num d.nHeads, .num d.nSectors,
         .num d.cbSector, .flag d.fRemovable],
   .num d.bHead, .inum (-1), .num d.bCylinder, .num d.bSector,
   .num d.bSectorEnd, .num d.nBytes, .num d.ibSector,
   VERSION_102, .str d.sDisketteName, .str d.sDiskettePath]

/-- The default drive data of `FDC.prototype.initDrive` (part_002 line
690): `[FDC.REG_DATA.ERR.RESET, true, 0, 2, 0]`. -/
def fdcDefaultDriveData : List SVal :=
  [.num FDC_ERR_RESET, .flag true, .num 0, .num 2, .num 0]

/-- Embedding of the restore path of `FDC.prototype.initDrive` (part_002
lines 678-788): a boolean in slot 1 (fresh-init form) is expanded to the
default geometry array; the remaining slots are read positionally; on a
v1.02 state the diskette name/path are taken from the trailing slots (the
actual remount and delta replay happen in the external Disk component);
re-seeking `drive.sector` is likewise external, modelled as `none`. -/
def restoreFDCDrive (old : FDCDrive) (data : List SVal) : FDCDrive :=
  let geom : List SVal :=
    match data.getD 1 SVal.null with
    | .flag b => [.str "Floppy Drive", .num 40, data.getD 3 SVal.null,
                  .num 9, .num 512, .flag b]
    | .arr l => l
    | _ => []
  let v102 := svIsV102 (data.getD 9 SVal.null)
  { old with
    errorCode := svNum data 0 0,
    name := svStr geom 0 "",
    nCylinders := svNum geom 1 0,
    nHeads := svNum geom 2 0,
    nSectors := svNum geom 3 0,
    cbSector := svNum geom 4 0,
    fRemovable := svFlag geom 5 false,
    bHead := svNum data 2 0,
    bCylinder := svNum data 4 0,
    bSector := svNum data 5 0,
    bSectorEnd := svNum data 6 0,
    nBytes := svNum data 7 0,
    ibSector := svNum data 8 0,
    sector := none,
    sDisketteName := if v102 then svStr data 10 old.sDisketteName else old.sDisketteName,
    sDiskettePath := if v102 then svStr data 11 old.sDiskettePath else old.sDiskettePath }

/-- Restore of the FDC drive array: `initController` iterates over the
four allocated drive slots, reading the matching saved entry (part_002
lines 617-628). -/
def restoreFDCDrives (old : List FDCDrive) (dataList : List SVal) : List FDCDrive :=
  (List.range old.length).map fun i =>
    match dataList.getD i SVal.null with
    | SVal.arr l => restoreFDCDrive (old.getD i default) l
    | _ => restoreFDCDrive (old.getD i default) fdcDefaultDriveData

/-- Embedding of `FDC.prototype.saveController` (part_002 lines 651-667):
drive/unit selectors, status, FIFO array and indices, Output register, the
drives array, the disk-history deltas (owned by the external Disk
component, modelled as `null`), then the Input and Control registers. -/
def saveFDCController (s : FDCState) : List SVal :=
  [.num s.iDrive, .num s.iUnit, .num s.regStatus, .nums s.regDataArray,
   .num s.regDataIndex, .num s.regDataTotal, .num s.regOutput,
   .arr (s.drives.map fun d => SVal.arr (saveFDCDrive d)),
   .null, .num s.regInput, .num s.regControl]

/-- Embedding of `FDC.prototype.initController` (part_002 lines 567-643)
on saved data: read the slots positionally; `regInput` and `regControl`
fall back through JavaScript `||` to 0 and `RATE500K` (which is 0). -/
def restoreFDCController (old : FDCState) (data : List SVal) : FDCState :=
  { old with
    iDrive := svNum data 0 0,
    iUnit := svNum data 1 0,
    regStatus := svNum data 2 FDC_STATUS_RQM,
    regDataArray := svNums data 3,
    regDataIndex := svNum data 4 0,
    regDataTotal := svNum data 5 0,
    regOutput := svNum data 6 0,
    drives := restoreFDCDrives old.drives (svArr data 7),
    regInput := orZero (svNum data 9 0) 0,
    regControl := orZero (svNum data 10 0) 0 }

/-! ## Sample states used to evaluate theorems on concrete inputs -/

/-- Sample FDC controller state: a complete RECALIBRATE command (2 bytes)
for unit 0, with the drive-interrupt enable bit set in the Output register
and four freshly allocated drives. -/
def sampleFDCRecal : FDCState :=
  ⟨0, 0, 0x80, [0x07, 0x00], 0, 2, 0x0C, 0, 0,
   [default, default, default, default], false⟩

/-- Sample FDC controller state: a complete READ_DATA request
(unit 0, C=0, H=0, R=1, N=2, EOT=9, GPL=0x2A, DTL=0xFF) with no diskette
mounted in any drive. -/
def sampleFDCRead : FDCState :=
  ⟨0, 0, 0x80, [0x06, 0x00, 0x00, 0x00, 0x01, 0x02, 0x09, 0x2A, 0xFF], 0, 9,
   0x0C, 0, 0, [default, default, default, default], false⟩

/-- Sample HDC drive: XTC type-3 geometry (306 cylinders, 4 heads) at a
mid-disk position. -/
def sampleHDCDrive : HDCDrive :=
  ⟨0, 0, false, [], [], 2, 4, 120, 9, 15, 512, 37, 3, 306, 17, 512, 1, 5, none, false⟩

/-- Sample ATC task-file registers with ten distinct values. -/
def sampleATCRegs : ATCRegs :=
  ⟨1, 2, 3, 4, 5, 6, 7, 8, 9, 10⟩

/-- Sample XTC controller state: drive 0 of type 3 and an empty second
slot, with `regConfig` holding the matching drive-type bits (3 << 2). -/
def sampleXTC : XTCState :=
  ⟨12, 0, [], 0, 0, 0, 0, 0, -1, [some sampleHDCDrive, none], false⟩

/-! ## Lemmas about the sector-advance algorithm -/

/-- One advance step strictly inside a track. -/
theorem advanceSector_mid (g : HDCGeom) (c q r : Nat) (hr : r + 1 < g.nSectors) :
    advanceSector g ⟨c, q, bSectorStart g + r⟩ = ⟨c, q, bSectorStart g + (r + 1)⟩ := by
  simp only [advanceSector]
  rw [if_neg (by omega), Nat.add_assoc]

/-- One advance step at the last sector of a track. -/
theorem advanceSector_rowEnd (g : HDCGeom) (c q : Nat) (hS : 0 < g.nSectors) :
    advanceSector g ⟨c, q, bSectorStart g + (g.nSectors - 1)⟩ =
      if q + 1 < g.nHeads then (⟨c, q + 1, bSectorStart g⟩ : HDCPos)
      else ⟨c + 1, 0, bSectorStart g⟩ := by
  simp only [advanceSector]
  rw [if_pos (by omega)]
  by_cases hq : q + 1 < g.nHeads
  · rw [if_neg (by omega), if_pos hq]
  · rw [if_pos (by omega), if_neg hq]

/-- Advancing from the start of a track stays on the track while fewer than
`nSectors` steps have been taken. -/
theorem advanceSector_row (g : HDCGeom) (c q : Nat) :
    ∀ r, r < g.nSectors →
      (advanceSector g)^[r] ⟨c, q, bSectorStart g⟩ = ⟨c, q, bSectorStart g + r⟩ := by
  intro r
  induction r with
  | zero => intro _; simp
  | succ k ih =>
    intro hk
    rw [Function.iterate_succ_apply', ih (by omega)]
    exact advanceSector_mid g c q k (by omega)

/-- Advancing from the middle of a track. -/
theorem advanceSector_rowFrom (g : HDCGeom) (c q r : Nat) :
    ∀ d, r + d < g.nSectors →
      (advanceSector g)^[d] ⟨c, q, bSectorStart g + r⟩ =
        ⟨c, q, bSectorStart g + (r + d)⟩ := by
  intro d
  induction d with
  | zero => intro _; simp
  | succ k ih =>
    intro h
    rw [Function.iterate_succ_apply', ih (by omega),
      advanceSector_mid g c q (r + k) (by omega), Nat.add_assoc]

/-- Finishing the current track from sector offset `r` takes
`nSectors - r` steps and moves to the next head (or the next cylinder from
the last head). -/
theorem advanceSector_rowFinish (g : HDCGeom) (c q r : Nat) (hr : r < g.nSectors) :
    (advanceSector g)^[g.nSectors - r] ⟨c, q, bSectorStart g + r⟩ =
      if q + 1 < g.nHeads then (⟨c, q + 1, bSectorStart g⟩ : HDCPos)
      else ⟨c + 1, 0, bSectorStart g⟩ := by
  have h1 : g.nSectors - r = (g.nSectors - r - 1) + 1 := by omega
  rw [h1, Function.iterate_succ_apply',
    advanceSector_rowFrom g c q r (g.nSectors - r - 1) (by omega)]
  rw [show r + (g.nSectors - r - 1) = g.nSectors - 1 from by omega]
  exact advanceSector_rowEnd g c q (by omega)

/-- Advancing through one whole track from its start. -/
theorem advanceSector_rowFull (g : HDCGeom) (c q : Nat) (hS : 0 < g.nSectors) :
    (advanceSector g)^[g.nSectors] ⟨c, q, bSectorStart g⟩ =
      if q + 1 < g.nHeads then (⟨c, q + 1, bSectorStart g⟩ : HDCPos)
      else ⟨c + 1, 0, bSectorStart g⟩ := by
  have := advanceSector_rowFinish g c q 0 hS
  simpa using this

/-- Walking down `q` whole tracks from the top of a cylinder. -/
theorem advanceSector_col (g : HDCGeom) (c : Nat) (hS : 0 < g.nSectors) :
    ∀ q, q < g.nHeads →
      (advanceSector g)^[q * g.nSectors] ⟨c, 0, bSectorStart g⟩ =
        ⟨c, q, bSectorStart g⟩ := by
  intro q
  induction q with
  | zero => intro _; simp
  | succ k ih =>
    intro hk
    have h1 : (k + 1) * g.nSectors = g.nSectors + k * g.nSectors := by ring
    rw [h1, Function.iterate_add_apply, ih (by omega),
      advanceSector_rowFull g c k hS, if_pos hk]

/-- Walking the last `j` tracks of a cylinder lands on the next cylinder. -/
theorem advanceSector_colEnd (g : HDCGeom) (c : Nat) (hS : 0 < g.nSectors) :
    ∀ j, 1 ≤ j → j ≤ g.nHeads →
      (advanceSector g)^[j * g.nSectors] ⟨c, g.nHeads - j, bSectorStart g⟩ =
        ⟨c + 1, 0, bSectorStart g⟩ := by
  intro j
  induction j with
  | zero => intro h _; exact absurd h (by omega)
  | succ k ih =>
    intro _ hk
    by_cases hk1 : k = 0
    · subst hk1
      rw [Nat.one_mul, advanceSector_rowFull g c (g.nHeads - 1) hS,
        if_neg (by omega)]
    · have h1 : (k + 1) * g.nSectors = k * g.nSectors + g.nSectors := by ring
      rw [h1, Function.iterate_add_apply,
        advanceSector_rowFull g c (g.nHeads - (k + 1)) hS,
        if_pos (by omega),
        show g.nHeads - (k + 1) + 1 = g.nHeads - k from by omega]
      exact ih (by omega) (by omega)

/-- The source's advance step agrees with the amended description for the
two sector-bias values that occur (0 for ATC, 1 for XTC). -/
theorem advanceSector_eq_amended (g : HDCGeom) (p : HDCPos) (h : g.bSectorBias ≤ 1) :
    advanceSector g p = advanceSectorAmended g p := by
  simp only [advanceSector, advanceSectorAmended, bSectorStart]
  rcases Nat.le_one_iff_eq_zero_or_eq_one.mp h with h0 | h0 <;>
    rw [h0] <;> split_ifs <;> first | rfl | (exfalso; omega)

/-- The pair returned when the FDC transfer loop stops with an error code
keeps the drive's head and cylinder: stated with the error code abstract,
so the check never evaluates the error-bit arithmetic. -/
theorem pairErr_frame (a : Int) (e : Nat) (d : FDCDrive) :
    (((a, { d with errorCode := e }) : Int × FDCDrive)).2.bHead = d.bHead ∧
    (((a, { d with errorCode := e }) : Int × FDCDrive)).2.bCylinder = d.bCylinder :=
  ⟨rfl, rfl⟩

/-- The FDC read loop never changes the head or the cylinder of the drive,
whatever the disk contents and however many iterations run. -/
theorem fdcReadByteLoop_frame (dsk : FDCDisk) :
    ∀ (fuel : Nat) (d : FDCDrive),
      (fdcReadByteLoop dsk fuel d).2.bHead = d.bHead ∧
      (fdcReadByteLoop dsk fuel d).2.bCylinder = d.bCylinder := by
  intro fuel
  induction fuel with
  | zero => intro d; exact ⟨rfl, rfl⟩
  | succ n ih =>
    intro d
    rw [fdcReadByteLoop]
    cases hs : d.sector with
    | some sec =>
      dsimp only
      by_cases hb : (0 : Int) ≤ dsk.read sec d.ibSector
      · rw [if_pos hb]
        exact ⟨rfl, rfl⟩
      · rw [if_neg hb]
        cases hk : dsk.seek d.bCylinder d.bHead d.bSector with
        | some sec2 => exact ⟨(ih _).1, (ih _).2⟩
        | none =>
          exact pairErr_frame (-1) (FDC_ERR_NO_DATA ||| FDC_ERR_INCOMPLETE)
            { d with ibSector := d.ibSector + 1, sector := some sec }
    | none =>
      cases hk : dsk.seek d.bCylinder d.bHead d.bSector with
      | some sec2 => exact ⟨(ih _).1, (ih _).2⟩
      | none =>
        exact pairErr_frame (-1) (FDC_ERR_NO_DATA ||| FDC_ERR_INCOMPLETE)
          { d with sector := none }

/-- The FDC write loop never changes the head or the cylinder of the
drive, whatever the disk contents and however many iterations run. -/
theorem fdcWriteByteLoop_frame (dsk : FDCDisk) (b : Nat) :
    ∀ (fuel : Nat) (d : FDCDrive),
      (fdcWriteByteLoop dsk b fuel d).2.bHead = d.bHead ∧
      (fdcWriteByteLoop dsk b fuel d).2.bCylinder = d.bCylinder := by
  intro fuel
  induction fuel with
  | zero => intro d; exact ⟨rfl, rfl⟩
  | succ n ih =>
    intro d
    rw [fdcWriteByteLoop]
    cases hs : d.sector with
    | some sec =>
      dsimp only
      by_cases hw : dsk.write sec d.ibSector b = true
      · rw [if_pos hw]
        exact ⟨rfl, rfl⟩
      · rw [if_neg hw]
        cases hk : dsk.seek d.bCylinder d.bHead d.bSector with
        | some sec2 => exact ⟨(ih _).1, (ih _).2⟩
        | none =>
          exact pairErr_frame (-1) (FDC_ERR_CRC_ERROR ||| FDC_ERR_INCOMPLETE)
            { d with ibSector := d.ibSector + 1, sector := none }
    | none =>
      cases hk : dsk.seek d.bCylinder d.bHead d.bSector with
      | some sec2 => exact ⟨(ih _).1, (ih _).2⟩
      | none =>
        exact pairErr_frame (-1) (FDC_ERR_CRC_ERROR ||| FDC_ERR_INCOMPLETE)
          { d with sector := none }

/-! ## Claim C1 -/

/-- C1, counterexample: the sector-advance algorithm as the claim words it
(wrap past `sectorsPerTrack + bias - 1`, reset to `bias`, with bias 1 for
the XTC) disagrees with the code.  On an XTC drive with 17 sectors/track and
4 heads (type 3), at the last sector of a track (0-based sector 16), the code
wraps to sector 0 of the next head while the claim's algorithm would move to
the nonexistent sector 17 of the same head. -/
theorem advanceSectorClaim_disagrees :
    advanceSector ⟨306, 4, 17, 1⟩ ⟨0, 0, 16⟩ = ⟨0, 1, 0⟩ ∧
    advanceSectorClaim ⟨306, 4, 17, 1⟩ ⟨0, 0, 16⟩ = ⟨0, 0, 17⟩ ∧
    (⟨0, 1, 0⟩ : HDCPos) ≠ ⟨0, 0, 17⟩ := by
  refine ⟨by decide, by decide, by decide⟩

/-- C1, amended: the HDC sector-advance algorithm (shared by the ATC and
XTC variants through `bSectorBias`) increments the sector register; if it
would exceed `sectorsPerTrack - bias` (that is, reach
`sectorsPerTrack + 1 - bias`), it is reset to `1 - bias` and the head is
incremented; if the head would exceed `heads - 1` it is reset to 0 and the
cylinder is incremented (bias 0 for ATC, 1 for XTC).  The FDC does not
share the head/cylinder rollover: its `readByte` and `writeByte` transfer
loops advance only the sector register and never change the head or the
cylinder. -/
theorem advanceSector_amended_with_fdc :
    (∀ (g : HDCGeom) (p : HDCPos), g.bSectorBias ≤ 1 →
      advanceSector g p = advanceSectorAmended g p) ∧
    (∀ (dsk : FDCDisk) (fuel : Nat) (d : FDCDrive),
      (fdcReadByte dsk fuel d).2.bHead = d.bHead ∧
      (fdcReadByte dsk fuel d).2.bCylinder = d.bCylinder) ∧
    (∀ (dsk : FDCDisk) (b fuel : Nat) (d : FDCDrive),
      (fdcWriteByte dsk b fuel d).2.bHead = d.bHead ∧
      (fdcWriteByte dsk b fuel d).2.bCylinder = d.bCylinder) := by
  refine ⟨fun g p h => advanceSector_eq_amended g p h,
    fun dsk fuel d => ?_, fun dsk b fuel d => ?_⟩
  · unfold fdcReadByte
    split_ifs
    · exact fdcReadByteLoop_frame dsk fuel d
    · exact ⟨rfl, rfl⟩
  · unfold fdcWriteByte
    split_ifs
    · exact fdcWriteByteLoop_frame dsk b fuel d
    · exact ⟨rfl, rfl⟩

/-- C1, witness: the amended equivalence evaluated on the XTC type-3
geometry at the end of a track. -/
theorem advanceSector_amended_with_fdc_witness :
    advanceSector ⟨306, 4, 17, 1⟩ ⟨0, 0, 16⟩ =
      advanceSectorAmended ⟨306, 4, 17, 1⟩ ⟨0, 0, 16⟩ :=
  advanceSector_amended_with_fdc.1 ⟨306, 4, 17, 1⟩ ⟨0, 0, 16⟩ (by decide)

/-! ## Claim C2 -/

/-- C2: for every drive position within the geometry bounds (cylinder
within `nCylinders`, head within `nHeads`, sector within the per-variant
valid range starting at `bSectorStart`), applying `advanceSector` exactly
`nSectors * nHeads` times returns to the same head and sector with the
cylinder exactly one greater. -/
theorem advanceSector_cylinder_increment (g : HDCGeom) (p : HDCPos)
    (_hc : p.wCylinder < g.nCylinders) (hh : p.bHead < g.nHeads)
    (hs1 : bSectorStart g ≤ p.bSector)
    (hs2 : p.bSector < bSectorStart g + g.nSectors) :
    (advanceSector g)^[g.nSectors * g.nHeads] p =
      ⟨p.wCylinder + 1, p.bHead, p.bSector⟩ := by
  obtain ⟨c, q, s⟩ := p
  simp only at hh hs1 hs2 ⊢
  have hS : 0 < g.nSectors := by omega
  have hsr : s = bSectorStart g + (s - bSectorStart g) := by omega
  rw [hsr]
  set r := s - bSectorStart g with hrdef
  have hr : r < g.nSectors := by omega
  have hsum : g.nSectors * g.nHeads =
      (r + q * g.nSectors) + ((g.nHeads - 1 - q) * g.nSectors + (g.nSectors - r)) := by
    have hq1 : q + 1 ≤ g.nHeads := hh
    have hexp : g.nSectors * g.nHeads = g.nSectors * (q + 1 + (g.nHeads - 1 - q)) := by
      congr 1
      omega
    have hexp2 : g.nSectors * (q + 1 + (g.nHeads - 1 - q)) =
        q * g.nSectors + (g.nHeads - 1 - q) * g.nSectors + g.nSectors := by ring
    rw [hexp, hexp2]
    omega
  rw [hsum, Function.iterate_add_apply, Function.iterate_add_apply,
    Function.iterate_add_apply, advanceSector_rowFinish g c q r hr]
  by_cases hq : q + 1 < g.nHeads
  · rw [if_pos hq]
    have hj1 : (1 : Nat) ≤ g.nHeads - 1 - q := by omega
    have hj2 : g.nHeads - 1 - q ≤ g.nHeads := by omega
    have hcol := advanceSector_colEnd g c hS (g.nHeads - 1 - q) hj1 hj2
    rw [show g.nHeads - (g.nHeads - 1 - q) = q + 1 from by omega] at hcol
    rw [hcol, advanceSector_col g (c + 1) hS q hh,
      advanceSector_row g (c + 1) q r hr]
  · rw [if_neg hq]
    rw [show g.nHeads - 1 - q = 0 from by omega]
    simp only [Nat.zero_mul, Function.iterate_zero_apply]
    rw [advanceSector_col g (c + 1) hS q hh,
      advanceSector_row g (c + 1) q r hr]

/-- C2, witness: 68 advances on the XTC type-3 geometry from cylinder 5,
head 2, sector 7 land on cylinder 6, head 2, sector 7. -/
theorem advanceSector_cylinder_increment_witness :
    (advanceSector ⟨306, 4, 17, 1⟩)^[17 * 4] ⟨5, 2, 7⟩ = ⟨6, 2, 7⟩ :=
  advanceSector_cylinder_increment ⟨306, 4, 17, 1⟩ ⟨5, 2, 7⟩ (by decide) (by decide)
    (by decide) (by decide)

/-! ## Claim C3 -/

/-- C3, counterexample: an XTC DMA write session that closes with
`completed = false` while the drive's recorded error is `NO_SECTOR` (an
explicit error, distinct from `NONE`) has its error masked back to `NONE`
and reports the success status, so a session that closes incomplete can
report success. -/
theorem doDMAWrite_incomplete_reports_ok :
    doDMAWrite_complete XTC_ERR_NO_SECTOR false = (XTC_ERR_NONE, XTC_STATUS_OK) ∧
    XTC_ERR_NO_SECTOR ≠ XTC_ERR_NONE ∧ XTC_STATUS_OK ≠ XTC_STATUS_ERROR := by
  refine ⟨by decide, by decide, by decide⟩

/-- C3, amended: for every XTC DMA session (read, write, or write-buffer),
a completion callback firing with `completed = false` and no explicit error
recorded sets the drive's error code to the generic `NOT_READY` code, so the
result status byte is `STATUS_ERROR`; a read or write-buffer session that
closes incomplete always reports `STATUS_ERROR`, and so does a write
session, except when its recorded error is `NO_SECTOR` (a write past the
end of the track), which is deliberately masked to success. -/
theorem dma_incomplete_policy :
    doDMARead_complete XTC_ERR_NONE false = (XTC_ERR_NOT_READY, XTC_STATUS_ERROR) ∧
    doDMAWrite_complete XTC_ERR_NONE false = (XTC_ERR_NOT_READY, XTC_STATUS_ERROR) ∧
    doDMAWriteBuffer_complete XTC_ERR_NONE false = (XTC_ERR_NOT_READY, XTC_STATUS_ERROR) ∧
    (∀ ec, (doDMARead_complete ec false).2 = XTC_STATUS_ERROR) ∧
    (∀ ec, (doDMAWriteBuffer_complete ec false).2 = XTC_STATUS_ERROR) ∧
    (∀ ec, ec ≠ XTC_ERR_NO_SECTOR → (doDMAWrite_complete ec false).2 = XTC_STATUS_ERROR) ∧
    (doDMAWrite_complete XTC_ERR_NO_SECTOR false).2 = XTC_STATUS_OK := by
  refine ⟨by decide, by decide, by decide, ?_, ?_, ?_, by decide⟩
  · intro ec
    by_cases h : ec = XTC_ERR_NONE
    · subst h; decide
    · simp only [doDMARead_complete, XTC_ERR_NONE] at h ⊢
      simp [h]
  · intro ec
    by_cases h : ec = XTC_ERR_NONE
    · subst h; decide
    · simp only [doDMAWriteBuffer_complete, XTC_ERR_NONE] at h ⊢
      simp [h]
  · intro ec hns
    by_cases h : ec = XTC_ERR_NONE
    · subst h; decide
    · simp only [doDMAWrite_complete, XTC_ERR_NONE, XTC_ERR_NO_SECTOR] at h hns ⊢
      simp [h, hns]

/-- C3, witness: an incomplete write session with a recorded checksum
error (0x31) reports the error status. -/
theorem dma_incomplete_policy_witness :
    (doDMAWrite_complete 0x31 false).2 = XTC_STATUS_ERROR :=
  dma_incomplete_policy.2.2.2.2.2.1 0x31 (by decide)

/-! ## Claim C10 -/

/-- C10: for every ATC command targeting an existing drive, the transfer
length set by the `doATC` preamble is 256 sectors times the drive's
bytes/sector when the Sector Count register holds 0, and `regSecCnt`
sectors otherwise. -/
theorem doATC_sector_count (r : ATCRegs) (ds : List (Option HDCDrive)) (d : HDCDrive)
    (hd : ds.getD (atcDriveIndex r) none = some d) :
    ∃ d2, doATCPrepare r ds = some d2 ∧
      (r.regSecCnt = 0 → d2.nBytes = 256 * d.cbSector) ∧
      (r.regSecCnt ≠ 0 → d2.nBytes = r.regSecCnt * d.cbSector) := by
  unfold doATCPrepare
  rw [hd]
  refine ⟨_, rfl, fun h0 => ?_, fun h0 => ?_⟩
  · simp [h0]
  · simp [h0]

/-- C10, witness: a task file with Sector Count 0 on a 512-byte/sector
drive requests 256 * 512 bytes. -/
theorem doATC_sector_count_witness :
    ∃ d2, doATCPrepare ⟨0, 0, 0, 1, 0, 0, 0, 0x40, 0x20, 0⟩
        [some ⟨0, 0, false, [], [], 0, 4, 0, 1, 0, 0, 0, 2, 615, 17, 512, 0, 0, none, true⟩] = some d2 ∧
      ((0 : Nat) = 0 → d2.nBytes = 256 * 512) ∧
      ((0 : Nat) ≠ 0 → d2.nBytes = 0 * 512) :=
  doATC_sector_count ⟨0, 0, 0, 1, 0, 0, 0, 0x40, 0x20, 0⟩
    [some ⟨0, 0, false, [], [], 0, 4, 0, 1, 0, 0, 0, 2, 615, 17, 512, 0, 0, none, true⟩]
    ⟨0, 0, false, [], [], 0, 4, 0, 1, 0, 0, 0, 2, 615, 17, 512, 0, 0, none, true⟩ rfl

/-! ## Claim C8 -/

/-- Setting a drive slot to `none` keeps a missing drive missing. -/
theorem drives_getD_after_set (l : List (Option HDCDrive)) (h : l[1]?.getD none = none) :
    ((l.set 1 none)[1]?).getD none = none := by
  by_cases h1 : 1 < l.length
  · simp [List.getElem?_set_eq_of_lt _ h1]
  · rw [List.set_eq_of_length_le (by omega)]
    exact h

/-- C8: an XTC `INITIALIZE_DRIVE_CHARACTERISTICS` command block (14 bytes,
opcode 0x0C, drive-select bit set for drive 1) issued while drive 1 does
not exist and the allow-next-init-to-fail flag is armed for drive 1 yields
a one-byte Result Phase whose data status byte is
`STATUS_ERROR | drive bit` and clears the flag, so re-issuing the identical
command yields the `STATUS_OK | drive bit` status byte. -/
theorem initDrive_fake_failure (dma : DMAOutcome) (s : XTCState) (b1 : Nat) (c : List Nat)
    (harr : s.regDataArray = XTC_CMD_INIT_DRIVE :: b1 :: c)
    (hb1 : b1 &&& 0x20 = 0x20)
    (hclen : c.length = 12)
    (htot : s.regDataTotal = 14)
    (hdrive : s.drives.getD 1 none = none)
    (hflag : s.iDriveAllowFail = 1) :
    (doXTC dma s).regDataArray = [XTC_STATUS_ERROR ||| 0x20] ∧
    (doXTC dma s).regDataTotal = 1 ∧
    (doXTC dma s).iDriveAllowFail = -1 ∧
    (doXTC dma (rewriteCommand (doXTC dma s) s.regDataArray)).regDataArray =
      [XTC_STATUS_OK ||| 0x20] := by
  have hlen : s.regDataArray.length = 14 := by rw [harr]; simp [hclen]
  have htake : s.regDataArray.take s.regDataTotal = s.regDataArray := by
    rw [htot, ← hlen, List.take_length]
  have h32 : (32 : Nat) >>> 5 = 1 := by decide
  simp only [List.getD, List.get?_eq_getElem?] at hdrive
  have harr1 : (doXTC dma s).regDataArray = [XTC_STATUS_ERROR ||| 0x20] := by
    rw [doXTC, htake, harr]
    simp only [List.getD_cons_zero, List.getD_cons_succ, hb1, h32]
    norm_num [XTC_CMD_REQUEST_SENSE, XTC_CMD_INIT_DRIVE, XTC_STATUS_ERROR,
      beginResultList, List.getD, hdrive, hflag]
  have htot1 : (doXTC dma s).regDataTotal = 1 := by
    rw [doXTC, htake, harr]
    simp only [List.getD_cons_zero, List.getD_cons_succ, hb1, h32]
    norm_num [XTC_CMD_REQUEST_SENSE, XTC_CMD_INIT_DRIVE, XTC_STATUS_ERROR,
      beginResultList, List.getD, hdrive, hflag]
  have hflag1 : (doXTC dma s).iDriveAllowFail = -1 := by
    rw [doXTC, htake, harr]
    simp only [List.getD_cons_zero, List.getD_cons_succ, hb1, h32]
    norm_num [XTC_CMD_REQUEST_SENSE, XTC_CMD_INIT_DRIVE, XTC_STATUS_ERROR,
      beginResultList, List.getD, hdrive, hflag]
  have hdrives1 : ((doXTC dma s).drives[1]?).getD none = none := by
    rw [doXTC, htake, harr]
    simp only [List.getD_cons_zero, List.getD_cons_succ, hb1, h32]
    norm_num [XTC_CMD_REQUEST_SENSE, XTC_CMD_INIT_DRIVE, XTC_STATUS_ERROR,
      beginResultList, List.getD, hdrive, hflag]
    exact drives_getD_after_set s.drives hdrive
  refine ⟨harr1, htot1, hflag1, ?_⟩
  set s1 := doXTC dma s with hs1
  rw [doXTC]
  simp only [rewriteCommand]
  simp only [List.take_length]
  rw [harr]
  simp only [List.getD_cons_zero, List.getD_cons_succ, hb1, h32]
  norm_num [XTC_CMD_REQUEST_SENSE, XTC_CMD_INIT_DRIVE, XTC_STATUS_OK,
    beginResultList, List.getD, hdrives1, hflag1]

/-- C8, witness: the fake-failure scenario on a concrete controller state
with no drive 1 and the flag armed for drive 1. -/
theorem initDrive_fake_failure_witness :
    (doXTC ⟨id, true⟩
      ⟨0, 0, [0x0C, 0x20, 0, 0, 0, 0, 0, 0, 0, 0, 0, 0, 0, 0], 0, 14, 0, 0, 0, 1, [], false⟩).regDataArray =
      [XTC_STATUS_ERROR ||| 0x20] ∧
    (doXTC ⟨id, true⟩
      ⟨0, 0, [0x0C, 0x20, 0, 0, 0, 0, 0, 0, 0, 0, 0, 0, 0, 0], 0, 14, 0, 0, 0, 1, [], false⟩).regDataTotal = 1 ∧
    (doXTC ⟨id, true⟩
      ⟨0, 0, [0x0C, 0x20, 0, 0, 0, 0, 0, 0, 0, 0, 0, 0, 0, 0], 0, 14, 0, 0, 0, 1, [], false⟩).iDriveAllowFail = -1 ∧
    (doXTC ⟨id, true⟩ (rewriteCommand
      (doXTC ⟨id, true⟩
        ⟨0, 0, [0x0C, 0x20, 0, 0, 0, 0, 0, 0, 0, 0, 0, 0, 0, 0], 0, 14, 0, 0, 0, 1, [], false⟩)
      [0x0C, 0x20, 0, 0, 0, 0, 0, 0, 0, 0, 0, 0, 0, 0])).regDataArray =
      [XTC_STATUS_OK ||| 0x20] :=
  initDrive_fake_failure ⟨id, true⟩
    ⟨0, 0, [0x0C, 0x20, 0, 0, 0, 0, 0, 0, 0, 0, 0, 0, 0, 0], 0, 14, 0, 0, 0, 1, [], false⟩
    0x20 [0, 0, 0, 0, 0, 0, 0, 0, 0, 0, 0, 0] rfl (by decide) (by decide) rfl rfl rfl

/-! ## Claim C5 -/

/-- C5: reading the FDC Main Status register is the identity on controller
state, so any number of such reads leaves the pending interrupt, the FIFO
read index and the FIFO fill count unchanged; a Data-register read, by
contrast, clears the pending interrupt (under the Output register's
interrupt-enable bit, which the controller requires for raising the
interrupt in the first place). -/
theorem fdc_status_read_frame :
    (∀ (s : FDCState) (n : Nat), (fun st => (inFDCStatus st).2)^[n] s = s) ∧
    (∀ s : FDCState, s.regOutput &&& FDC_OUTPUT_INT_ENABLE ≠ 0 →
      (inFDCData s).2.irqPending = false) := by
  constructor
  · intro s n
    exact Function.iterate_fixed rfl n
  · intro s h
    unfold inFDCData
    simp only [h, ne_eq, not_false_eq_true, if_true]
    split <;> simp [h]

/-- C5, witness: a Data-register read on a state with a pending interrupt
and interrupts enabled clears the interrupt. -/
theorem fdc_status_read_frame_witness :
    (inFDCData ⟨0, 0, 0x80, [], 0, 0, 0x0C, 0, 0, [], true⟩).2.irqPending = false :=
  fdc_status_read_frame.2 ⟨0, 0, 0x80, [], 0, 0, 0x0C, 0, 0, [], true⟩ (by decide)

/-! ## Claim C4 -/

/-- Projection: the command switch never touches the pending interrupt. -/
theorem doCmdCore_irqPending (peer : FDCDrive → FDCDrive) (s : FDCState) :
    (doCmdCore peer s).1.irqPending = s.irqPending := by
  simp only [doCmdCore, fdcBeginResult]
  split_ifs <;> rfl

/-- Projection: the command switch never touches the Output register. -/
theorem doCmdCore_regOutput (peer : FDCDrive → FDCDrive) (s : FDCState) :
    (doCmdCore peer s).1.regOutput = s.regOutput := by
  simp only [doCmdCore, fdcBeginResult]
  split_ifs <;> rfl

/-- The `fIRQ` flag of the command switch is exactly `cmdSignalsIRQ` of the
masked opcode. -/
theorem doCmdCore_fIRQ (peer : FDCDrive → FDCDrive) (s : FDCState) :
    (doCmdCore peer s).2.1 = cmdSignalsIRQ (s.regDataArray.getD 0 0 &&& 0x1F) := by
  simp only [doCmdCore, fdcBeginResult, cmdSignalsIRQ]
  split_ifs <;> simp_all

/-- Every branch that sets `fIRQ` also addresses a drive. -/
theorem doCmdCore_hasDrive_of_fIRQ (peer : FDCDrive → FDCDrive) (s : FDCState) :
    (doCmdCore peer s).2.1 = true → (doCmdCore peer s).2.2 = true := by
  simp only [doCmdCore, fdcBeginResult]
  split_ifs <;> simp

/-- Projection: the epilogue leaves the drive array unchanged. -/
theorem doCmdFinish_drives (r : FDCState × Bool × Bool) :
    (doCmdFinish r).drives = r.1.drives := by
  simp only [doCmdFinish]
  split_ifs <;> rfl

/-- Projection: the epilogue leaves the selected unit unchanged. -/
theorem doCmdFinish_iUnit (r : FDCState × Bool × Bool) :
    (doCmdFinish r).iUnit = r.1.iUnit := by
  simp only [doCmdFinish]
  split_ifs <;> rfl

/-- Projection: the epilogue leaves the FIFO fill count unchanged. -/
theorem doCmdFinish_regDataTotal (r : FDCState × Bool × Bool) :
    (doCmdFinish r).regDataTotal = r.1.regDataTotal := by
  simp only [doCmdFinish]
  split_ifs <;> rfl

/-- Projection: the epilogue leaves the FIFO contents unchanged. -/
theorem doCmdFinish_regDataArray (r : FDCState × Bool × Bool) :
    (doCmdFinish r).regDataArray = r.1.regDataArray := by
  simp only [doCmdFinish]
  split_ifs <;> rfl

/-- The epilogue raises the interrupt exactly under its four-way guard. -/
theorem doCmdFinish_irq_iff (r : FDCState × Bool × Bool) :
    ((doCmdFinish r).irqPending = true) ↔
      ((r.1.regOutput &&& FDC_OUTPUT_INT_ENABLE ≠ 0 ∧ r.2.2 = true ∧
        (r.1.drives.getD r.1.iUnit default).errorCode &&& FDC_ERR_NOT_READY = 0 ∧
        r.2.1 = true) ∨ r.1.irqPending = true) := by
  simp only [doCmdFinish]
  split_ifs <;> simp_all

/-- C4: with no interrupt already pending, `doCmd` raises the FDC interrupt
if and only if the Output register's interrupt-enable bit is set, the
command is one that signals completion by interrupt, and the addressed
drive's post-execution error code does not include the NOT_READY class
bit.  The drive array has the four entries `initController` allocates. -/
theorem doCmd_interrupt_iff (peer : FDCDrive → FDCDrive) (s : FDCState)
    (_h4 : s.drives.length = 4) (h0 : s.irqPending = false) :
    ((doCmd peer s).irqPending = true) ↔
      (s.regOutput &&& FDC_OUTPUT_INT_ENABLE ≠ 0 ∧
       cmdSignalsIRQ (s.regDataArray.getD 0 0 &&& 0x1F) = true ∧
       ((doCmd peer s).drives.getD (doCmd peer s).iUnit default).errorCode &&&
         FDC_ERR_NOT_READY = 0) := by
  have hfin := doCmdFinish_irq_iff (doCmdCore peer s)
  have himp := doCmdCore_hasDrive_of_fIRQ peer s
  rw [doCmd, hfin, doCmdCore_irqPending, h0, doCmdFinish_drives, doCmdFinish_iUnit,
    doCmdCore_regOutput, doCmdCore_fIRQ] at *
  constructor
  · rintro (⟨ha, hb, hc, hd⟩ | hfalse)
    · exact ⟨ha, hd, hc⟩
    · exact absurd hfalse (by simp)
  · rintro ⟨ha, hb, hc⟩
    exact Or.inl ⟨ha, himp hb, hc, hb⟩

/-- C4, witness: a RECALIBRATE command with interrupts enabled on a fresh
controller. -/
theorem doCmd_interrupt_iff_witness :
    ((doCmd id sampleFDCRecal).irqPending = true) ↔
      (sampleFDCRecal.regOutput &&& FDC_OUTPUT_INT_ENABLE ≠ 0 ∧
       cmdSignalsIRQ (sampleFDCRecal.regDataArray.getD 0 0 &&& 0x1F) = true ∧
       ((doCmd id sampleFDCRecal).drives.getD (doCmd id sampleFDCRecal).iUnit
          default).errorCode &&& FDC_ERR_NOT_READY = 0) :=
  doCmd_interrupt_iff id sampleFDCRecal rfl rfl

/-! ## Claim C6 -/

/-- Setting and reading back a drive slot selected by a 2-bit unit number
in the four-entry drive array. -/
theorem getElem_set_and3 (l : List FDCDrive) (h4 : l.length = 4) (b : Nat) (a : FDCDrive) :
    ((l.set (b &&& 3) a)[b &&& 3]?).getD default = a := by
  have hlt : b &&& 3 < l.length := by
    have : b &&& 3 ≤ 3 := Nat.and_le_right
    omega
  simp [List.getElem?_set_eq_of_lt _ hlt]

/-- C6: a READ_DATA or WRITE_DATA command has a 9-byte request sequence
(the opcode plus exactly 8 request bytes: unit/head select, C, H, R, N,
EOT, GPL, DTL, decoded by `readWriteSetup`), the per-sector byte count is
computed as `128 << N`, and the Result Phase holds exactly 7 bytes:
ST0, ST1, ST2 followed by the addressed drive's final (post-transfer)
C, H, R and the request's N. -/
theorem readwrite_command_shape (peer : FDCDrive → FDCDrive) (s : FDCState)
    (h4 : s.drives.length = 4)
    (hcmd : s.regDataArray.getD 0 0 &&& 0x1F = 0x05 ∨ s.regDataArray.getD 0 0 &&& 0x1F = 0x06) :
    aCmdSeqs (s.regDataArray.getD 0 0 &&& 0x1F) = some (9, 7) ∧
    (readWriteSetup s).2.2.nBytes = 128 <<< s.regDataArray.getD 5 0 ∧
    (doCmd peer s).regDataTotal = 7 ∧
    (doCmd peer s).regDataArray =
      [st0Byte (doCmd peer s).iUnit
         ((doCmd peer s).drives.getD (doCmd peer s).iUnit default).bHead
         ((doCmd peer s).drives.getD (doCmd peer s).iUnit default).errorCode,
       st1Byte ((doCmd peer s).drives.getD (doCmd peer s).iUnit default).errorCode,
       st2Byte ((doCmd peer s).drives.getD (doCmd peer s).iUnit default).errorCode,
       ((doCmd peer s).drives.getD (doCmd peer s).iUnit default).bCylinder,
       ((doCmd peer s).drives.getD (doCmd peer s).iUnit default).bHead,
       ((doCmd peer s).drives.getD (doCmd peer s).iUnit default).bSector,
       s.regDataArray.getD 5 0] := by
  obtain hc | hc := hcmd
  · refine ⟨by rw [hc]; rfl, by simp [readWriteSetup], ?_, ?_⟩
    · rw [doCmd, doCmdFinish_regDataTotal]
      simp only [doCmdCore, hc]
      norm_num [fdcBeginResult]
    · rw [doCmd, doCmdFinish_regDataArray, doCmdFinish_drives, doCmdFinish_iUnit]
      simp only [doCmdCore, hc]
      norm_num [fdcBeginResult, readWriteSetup, getElem_set_and3 _ h4]
  · refine ⟨by rw [hc]; rfl, by simp [readWriteSetup], ?_, ?_⟩
    · rw [doCmd, doCmdFinish_regDataTotal]
      simp only [doCmdCore, hc]
      norm_num [fdcBeginResult]
    · rw [doCmd, doCmdFinish_regDataArray, doCmdFinish_drives, doCmdFinish_iUnit]
      simp only [doCmdCore, hc]
      norm_num [fdcBeginResult, readWriteSetup, getElem_set_and3 _ h4]

/-- C6, witness: the READ_DATA request of `sampleFDCRead` produces a
7-byte Result Phase of the stated shape. -/
theorem readwrite_command_shape_witness :
    aCmdSeqs (sampleFDCRead.regDataArray.getD 0 0 &&& 0x1F) = some (9, 7) ∧
    (readWriteSetup sampleFDCRead).2.2.nBytes =
      128 <<< sampleFDCRead.regDataArray.getD 5 0 ∧
    (doCmd id sampleFDCRead).regDataTotal = 7 ∧
    (doCmd id sampleFDCRead).regDataArray =
      [st0Byte (doCmd id sampleFDCRead).iUnit
         ((doCmd id sampleFDCRead).drives.getD (doCmd id sampleFDCRead).iUnit default).bHead
         ((doCmd id sampleFDCRead).drives.getD (doCmd id sampleFDCRead).iUnit default).errorCode,
       st1Byte ((doCmd id sampleFDCRead).drives.getD (doCmd id sampleFDCRead).iUnit default).errorCode,
       st2Byte ((doCmd id sampleFDCRead).drives.getD (doCmd id sampleFDCRead).iUnit default).errorCode,
       ((doCmd id sampleFDCRead).drives.getD (doCmd id sampleFDCRead).iUnit default).bCylinder,
       ((doCmd id sampleFDCRead).drives.getD (doCmd id sampleFDCRead).iUnit default).bHead,
       ((doCmd id sampleFDCRead).drives.getD (doCmd id sampleFDCRead).iUnit default).bSector,
       sampleFDCRead.regDataArray.getD 5 0] :=
  readwrite_command_shape id sampleFDCRead rfl (Or.inr (by decide))

/-! ## Claim C7 -/

/-- C7: a READ_DATA command addressed to a drive with no mounted diskette
leaves the drive with the `NOT_READY | INCOMPLETE` error (a NotReady-class
code) and still produces the command's full fixed Result Phase of 7 bytes,
matching the `aCmdSeqs` table entry. -/
theorem read_no_disk (peer : FDCDrive → FDCDrive) (s : FDCState)
    (h4 : s.drives.length = 4)
    (hcmd : s.regDataArray.getD 0 0 &&& 0x1F = 0x06)
    (hnd : (s.drives.getD (s.regDataArray.getD 1 0 &&& 0x3) default).hasDisk = false) :
    ((doCmd peer s).drives.getD (doCmd peer s).iUnit default).errorCode =
      (FDC_ERR_NOT_READY ||| FDC_ERR_INCOMPLETE) ∧
    ((doCmd peer s).drives.getD (doCmd peer s).iUnit default).errorCode &&&
      FDC_ERR_NOT_READY ≠ 0 ∧
    (doCmd peer s).regDataTotal = 7 ∧
    aCmdSeqs (s.regDataArray.getD 0 0 &&& 0x1F) = some (9, 7) := by
  simp only [List.getD, List.get?_eq_getElem?] at hnd
  refine ⟨?_, ?_, ?_, by rw [hcmd]; rfl⟩
  · rw [doCmd, doCmdFinish_drives, doCmdFinish_iUnit]
    simp only [doCmdCore, hcmd]
    norm_num [fdcBeginResult, readWriteSetup, getElem_set_and3 _ h4, doRead, hnd]
  · rw [doCmd, doCmdFinish_drives, doCmdFinish_iUnit]
    simp only [doCmdCore, hcmd]
    norm_num [fdcBeginResult, readWriteSetup, getElem_set_and3 _ h4, doRead, hnd,
      FDC_ERR_NOT_READY, FDC_ERR_INCOMPLETE]
    decide
  · rw [doCmd, doCmdFinish_regDataTotal]
    simp only [doCmdCore, hcmd]
    norm_num [fdcBeginResult]

/-- C7, witness: the concrete READ_DATA request with no diskette mounted. -/
theorem read_no_disk_witness :
    ((doCmd id sampleFDCRead).drives.getD (doCmd id sampleFDCRead).iUnit default).errorCode =
      (FDC_ERR_NOT_READY ||| FDC_ERR_INCOMPLETE) ∧
    ((doCmd id sampleFDCRead).drives.getD (doCmd id sampleFDCRead).iUnit default).errorCode &&&
      FDC_ERR_NOT_READY ≠ 0 ∧
    (doCmd id sampleFDCRead).regDataTotal = 7 ∧
    aCmdSeqs (sampleFDCRead.regDataArray.getD 0 0 &&& 0x1F) = some (9, 7) :=
  read_no_disk id sampleFDCRead rfl (by decide) (by decide)

/-! ## Claim C9 -/

theorem orZero_zero (n : Nat) : orZero n 0 = n := by
  unfold orZero
  split <;> omega

theorem verifyDrive_preserves_position (iH : Nat) (d : HDCDrive) :
    (verifyDrive iH d).wCylinder = d.wCylinder ∧
    (verifyDrive iH d).bHead = d.bHead ∧
    (verifyDrive iH d).bSector = d.bSector ∧
    (verifyDrive iH d).ibSector = d.ibSector := by
  unfold verifyDrive
  dsimp only
  split_ifs with h
  · exact ⟨rfl, rfl, rfl, rfl⟩
  · cases aDriveTypes iH d.type with
    | none => exact ⟨rfl, rfl, rfl, rfl⟩
    | some ch => exact ⟨rfl, rfl, rfl, rfl⟩

theorem restoreHDCDrive_position (fATC : Bool) (d : HDCDrive) :
    (restoreHDCDrive fATC d (saveHDCDrive d)).wCylinder = d.wCylinder ∧
    (restoreHDCDrive fATC d (saveHDCDrive d)).bHead = d.bHead ∧
    (restoreHDCDrive fATC d (saveHDCDrive d)).bSector = d.bSector ∧
    (restoreHDCDrive fATC d (saveHDCDrive d)).ibSector = d.ibSector := by
  have hv := verifyDrive_preserves_position (if fATC then 1 else 0)
    { d with
      errorCode := svNum (saveHDCDrive d) 0 0,
      senseCode := svNum (saveHDCDrive d) 1 0,
      fRemovable := svFlag (saveHDCDrive d) 2 false,
      abDriveParms := svNums (saveHDCDrive d) 3,
      abSector := svNums (saveHDCDrive d) 4,
      bHead := svNum (saveHDCDrive d) 5 0,
      nHeads := svNum (saveHDCDrive d) 6 0,
      wCylinder := svNum (saveHDCDrive d) 7 0,
      bSector := svNum (saveHDCDrive d) 8 0,
      bSectorEnd := svNum (saveHDCDrive d) 9 0,
      nBytes := svNum (saveHDCDrive d) 10 0,
      bSectorBias := if fATC then 0 else 1,
      nSectors := 17,
      cbSector := 512 }
  simp only [restoreHDCDrive]
  refine ⟨?_, ?_, ?_, ?_⟩
  · rw [hv.1]; rfl
  · rw [hv.2.1]; rfl
  · rw [hv.2.2.1]; rfl
  · rfl

theorem restoreFDCDrive_position (d : FDCDrive) :
    (restoreFDCDrive d (saveFDCDrive d)).bCylinder = d.bCylinder ∧
    (restoreFDCDrive d (saveFDCDrive d)).bHead = d.bHead ∧
    (restoreFDCDrive d (saveFDCDrive d)).bSector = d.bSector ∧
    (restoreFDCDrive d (saveFDCDrive d)).ibSector = d.ibSector := by
  exact ⟨rfl, rfl, rfl, rfl⟩

theorem restoreATCRegs_roundtrip (r : ATCRegs) (ds : List (Option HDCDrive)) :
    restoreATCRegs (saveATCController r ds) = r := rfl

theorem restoreHDCDrives_position (fATC : Bool) (ds : List (Option HDCDrive))
    (i : Nat) (d : HDCDrive) (hi : ds.getD i none = some d) :
    ∃ d₂, (restoreHDCDrives fATC ds (ds.map fun od => match od with
        | some d₁ => SVal.arr (saveHDCDrive d₁)
        | none => SVal.null)).getD i none = some d₂ ∧
      d₂.wCylinder = d.wCylinder ∧ d₂.bHead = d.bHead ∧
      d₂.bSector = d.bSector ∧ d₂.ibSector = d.ibSector := by
  have hlen : i < ds.length := by
    by_contra hc
    push_neg at hc
    rw [List.getD_eq_default _ _ hc] at hi
    exact Option.noConfusion hi
  have hget : ds[i] = some d := by
    rw [List.getD_eq_getElem ds none hlen] at hi
    exact hi
  have key : (restoreHDCDrives fATC ds (ds.map fun od => match od with
      | some d₁ => SVal.arr (saveHDCDrive d₁)
      | none => SVal.null)).getD i none
      = some (restoreHDCDrive fATC d (saveHDCDrive d)) := by
    unfold restoreHDCDrives
    rw [List.getD_eq_getElem?_getD, List.getElem?_map, List.getElem?_range hlen]
    have hmap : ((ds.map fun od => match od with
        | some d₁ => SVal.arr (saveHDCDrive d₁)
        | none => SVal.null)).getD i SVal.null = SVal.arr (saveHDCDrive d) := by
      rw [List.getD_eq_getElem?_getD, List.getElem?_map,
        List.getElem?_eq_getElem hlen, hget]
      rfl
    simp only [Option.map_some', Option.getD_some, hmap, hi]
  exact ⟨restoreHDCDrive fATC d (saveHDCDrive d), key,
    (restoreHDCDrive_position fATC d).1,
    (restoreHDCDrive_position fATC d).2.1,
    (restoreHDCDrive_position fATC d).2.2.1,
    (restoreHDCDrive_position fATC d).2.2.2⟩

theorem restoreFDCDrives_position (ds : List FDCDrive) (i : Nat)
    (hlen : i < ds.length) :
    ((restoreFDCDrives ds (ds.map fun d => SVal.arr (saveFDCDrive d))).getD i default).bCylinder
        = (ds.getD i default).bCylinder ∧
    ((restoreFDCDrives ds (ds.map fun d => SVal.arr (saveFDCDrive d))).getD i default).bHead
        = (ds.getD i default).bHead ∧
    ((restoreFDCDrives ds (ds.map fun d => SVal.arr (saveFDCDrive d))).getD i default).bSector
        = (ds.getD i default).bSector ∧
    ((restoreFDCDrives ds (ds.map fun d => SVal.arr (saveFDCDrive d))).getD i default).ibSector
        = (ds.getD i default).ibSector := by
  have key : (restoreFDCDrives ds (ds.map fun d => SVal.arr (saveFDCDrive d))).getD i default
      = restoreFDCDrive (ds.getD i default) (saveFDCDrive (ds.getD i default)) := by
    unfold restoreFDCDrives
    rw [List.getD_eq_getElem?_getD, List.getElem?_map, List.getElem?_range hlen]
    have hmap : ((ds.map fun d => SVal.arr (saveFDCDrive d))).getD i SVal.null
        = SVal.arr (saveFDCDrive (ds.getD i default)) := by
      rw [List.getD_eq_getElem?_getD, List.getElem?_map,
        List.getElem?_eq_getElem hlen, List.getD_eq_getElem ds default hlen]
      rfl
    simp only [Option.map_some', Option.getD_some, hmap]
  rw [key]
  exact restoreFDCDrive_position (ds.getD i default)

/-- C9: restoring a controller from the array produced by `saveController`
reproduces the original controller's register values exactly and preserves
every drive's position (cylinder, head, sector and byte cursor within the
sector), for the HDC ATC and XTC variants and for the FDC.  The XTC's
`regConfig` register round-trips because `initController` re-ORs the
configured drive-type bits into the saved value, which already contains
them in any state the controller itself produced. -/
theorem saveController_roundtrip
    (r : ATCRegs) (ds : List (Option HDCDrive)) (x : XTCState)
    (types : List Nat) (f : FDCState)
    (hcfg : applyConfigBits x.regConfig types = x.regConfig) :
    restoreATCRegs (saveATCController r ds) = r ∧
    restoreXTCController x types (saveXTCController x) = { x with drives := (restoreXTCController x types (saveXTCController x)).drives } ∧
    restoreFDCController f (saveFDCController f) = { f with drives := (restoreFDCController f (saveFDCController f)).drives } ∧
    (∀ i d, ds.getD i none = some d →
      ∃ d₂, (restoreHDCDrives true ds (svArr (saveATCController r ds) 10)).getD i none = some d₂ ∧
        d₂.wCylinder = d.wCylinder ∧ d₂.bHead = d.bHead ∧
        d₂.bSector = d.bSector ∧ d₂.ibSector = d.ibSector) ∧
    (∀ i d, x.drives.getD i none = some d →
      ∃ d₂, (restoreXTCController x types (saveXTCController x)).drives.getD i none = some d₂ ∧
        d₂.wCylinder = d.wCylinder ∧ d₂.bHead = d.bHead ∧
        d₂.bSector = d.bSector ∧ d₂.ibSector = d.ibSector) ∧
    (∀ i, i < f.drives.length →
      ((restoreFDCController f (saveFDCController f)).drives.getD i default).bCylinder = (f.drives.getD i default).bCylinder ∧
      ((restoreFDCController f (saveFDCController f)).drives.getD i default).bHead = (f.drives.getD i default).bHead ∧
      ((restoreFDCController f (saveFDCController f)).drives.getD i default).bSector = (f.drives.getD i default).bSector ∧
      ((restoreFDCController f (saveFDCController f)).drives.getD i default).ibSector = (f.drives.getD i default).ibSector) := by
  refine ⟨rfl, ?_, ?_, ?_, ?_, ?_⟩
  · have h2 : restoreXTCController x types (saveXTCController x) = { x with regConfig := applyConfigBits x.regConfig types, drives := (restoreXTCController x types (saveXTCController x)).drives } := rfl
    rw [h2, hcfg]
  · have h3 : restoreFDCController f (saveFDCController f) = { f with regInput := orZero f.regInput 0, regControl := orZero f.regControl 0, drives := (restoreFDCController f (saveFDCController f)).drives } := rfl
    rw [h3, orZero_zero, orZero_zero]
  · intro i d hi
    exact restoreHDCDrives_position true ds i d hi
  · intro i d hi
    exact restoreHDCDrives_position false x.drives i d hi
  · intro i hlen
    exact restoreFDCDrives_position f.drives i hlen

theorem saveController_roundtrip_witness :
    applyConfigBits sampleXTC.regConfig [3, 0] = sampleXTC.regConfig ∧
    restoreXTCController sampleXTC [3, 0] (saveXTCController sampleXTC) = { sampleXTC with drives := (restoreXTCController sampleXTC [3, 0] (saveXTCController sampleXTC)).drives } :=
  ⟨by decide,
   (saveController_roundtrip sampleATCRegs [some sampleHDCDrive, none]
      sampleXTC [3, 0] sampleFDCRecal (by decide)).2.1⟩
